import Mathlib

/-!
# OCI worker activation of `buildkitd`

A shallow embedding of `cmd/buildkitd/main_oci_worker.go`:
`applyOCIFlags`, `validOCIBinary`, `snapshotterFactory` and `ociWorkerInitializer`.

* Go values that may be `nil` (`*bool`, `map[string]string`, `error`, a function value)
  are `Option`s.
* `int64` is `Int`, every arithmetic result being wrapped by `wrapInt64`.
* Code mutating `*config.Config` in place returns the configuration it leaves behind.
* Calls that leave the file (search-path lookups, the overlay probe, worker construction,
  log lines) are answered by a `Host` record and recorded, in program order, in a trace.
-/

namespace Buildkitd

/-! ## Go maps -/

/-- Writing `m[k] = v` on the entries of a map: the value of an existing key is replaced in
place, a new key is appended. -/
def setEntries (k v : String) : List (String × String) → List (String × String)
  | [] => [(k, v)]
  | (k', v') :: t => if k' = k then (k, v) :: t else (k', v') :: setEntries k v t

/-- Reading `m[k]` on the entries of a map. -/
def lookupEntries (k : String) : List (String × String) → Option String
  | [] => none
  | (k', v') :: t => if k' = k then some v' else lookupEntries k t

theorem keys_setEntries (k v : String) (l : List (String × String)) :
    (setEntries k v l).map Prod.fst =
      if k ∈ l.map Prod.fst then l.map Prod.fst else l.map Prod.fst ++ [k] := by
  induction l with
  | nil => simp [setEntries]
  | cons e t ih =>
    obtain ⟨k', v'⟩ := e
    by_cases h : k' = k
    · subst h
      simp [setEntries]
    · have h' : ¬ k = k' := fun e => h e.symm
      simp only [setEntries, if_neg h, List.map_cons, ih, List.mem_cons, h', false_or]
      split <;> simp

theorem nodup_keys_setEntries (k v : String) (l : List (String × String))
    (h : (l.map Prod.fst).Nodup) : ((setEntries k v l).map Prod.fst).Nodup := by
  rw [keys_setEntries]
  split
  · exact h
  · rename_i hk
    rw [List.nodup_append]
    refine ⟨h, List.nodup_singleton k, ?_⟩
    intro a ha hb
    rw [List.mem_singleton] at hb
    exact hk (hb ▸ ha)

/-- A non-nil Go `map[string]string`: its entries in iteration order, keys pairwise
distinct. -/
structure StrMap where
  entries : List (String × String)
  nodupKeys : (entries.map Prod.fst).Nodup

namespace StrMap

instance : DecidableEq StrMap := fun a b =>
  decidable_of_iff (a.entries = b.entries)
    ⟨fun h => by cases a; cases b; cases h; rfl, fun h => by rw [h]⟩

/-- The map `make(map[string]string)`. -/
def empty : StrMap := ⟨[], List.nodup_nil⟩

/-- The read `m[k]`, `none` when the key is absent. -/
def get (m : StrMap) (k : String) : Option String := lookupEntries k m.entries

/-- The write `m[k] = v`. -/
def set (m : StrMap) (k v : String) : StrMap :=
  ⟨setEntries k v m.entries, nodup_keys_setEntries k v m.entries m.nodupKeys⟩

end StrMap

/-! ## Machine integers -/

/-- An integer reduced to the range of Go's `int64` (two's complement wrap-around). -/
def wrapInt64 (x : Int) : Int :=
  (x + 9223372036854775808) % 18446744073709551616 - 9223372036854775808

/-- The values an `int64` can hold. -/
def isInt64 (x : Int) : Prop := -9223372036854775808 ≤ x ∧ x ≤ 9223372036854775807

instance (x : Int) : Decidable (isInt64 x) := by unfold isInt64; infer_instance

/-! ## Configuration -/

/-- A rule of the garbage-collection policy (`config.GCPolicy`), carried through
unread. -/
abbrev GCPolicyRule := String

/-- Modelled from the spec: `config.GCConfig` is declared outside
`main_oci_worker.go`; garbage-collection enablement, the storage cap in bytes and the list
of policy rules, under the field names the code uses. -/
structure GCConfig where
  GC : Option Bool
  GCKeepStorage : Int
  GCPolicy : List GCPolicyRule
  deriving DecidableEq

/-- Modelled from the spec: `config.OCIConfig` is declared outside
`main_oci_worker.go`; the per-backend record of spec section 3 (enablement, label set,
platforms, driver name, rootless flag, sandbox-bypass flag, embedded GC settings), under
the field names the code uses. A nil `Labels` map is `none`. -/
structure OCIConfig where
  Enabled : Option Bool
  Labels : Option StrMap
  Platforms : List String
  Snapshotter : String
  Rootless : Bool
  NoProcessSandbox : Bool
  GCConfig : GCConfig
  deriving DecidableEq

/-- Modelled from the spec: `config.Config` is declared outside
`main_oci_worker.go`; the daemon root, the registry settings (carried through unread) and
`Workers.OCI`. -/
structure Config where
  Root : String
  Registries : String
  OCI : OCIConfig
  deriving DecidableEq

/-- The command-line context `*cli.Context`, through the accessors the file calls. -/
structure Context where
  GlobalIsSet : String → Bool
  GlobalString : String → String
  GlobalBool : String → Bool
  GlobalStringSlice : String → List String
  GlobalInt64 : String → Int

/-! ## Values crossing the worker-construction boundary -/

/-- The constructor stored in `runc.SnapshotterFactory.New`. -/
inductive SnapshotterNew where
  | native
  | overlay
  deriving DecidableEq, Repr

/-- The record `runc.SnapshotterFactory`; an unset `New` is `none`. -/
structure SnapshotterFactory where
  Name : String
  New : Option SnapshotterNew
  deriving DecidableEq, Repr

/-- The process modes `oci.ProcessSandbox` and `oci.NoProcessSandbox`. -/
inductive ProcessMode where
  | ProcessSandbox
  | NoProcessSandbox
  deriving DecidableEq, Repr

/-- The options record `base.WorkerOpt`: what `runc.NewWorkerOpt` filled in (`made`) and
the three fields the initializer assigns. -/
structure WorkerOpt where
  made : String
  GCPolicy : List GCPolicyRule
  ResolveOptionsFunc : String
  Platforms : List String
  deriving DecidableEq, Repr

/-- A constructed `worker.Worker`. -/
structure Worker where
  id : String
  deriving DecidableEq, Repr

/-- What the file asks of its collaborators. A Go result `(v, err)` is an `Except`; a
lone `error` is an `Option` holding the message. -/
structure Host where
  /-- The helper `parseBoolOrAuto` of the `main` package; a nil `*bool` is `none`. -/
  parseBoolOrAuto : String → Except String (Option Bool)
  /-- The helper `attrMap` of the `main` package. -/
  attrMap : List String → Except String StrMap
  /-- Whether `exec.LookPath` finds the named file (returns a nil error). -/
  lookPath : String → Bool
  /-- The error of `overlay.Supported` at a root, `none` when overlayfs is usable. -/
  overlaySupported : String → Option String
  /-- The table of `unicode.IsPrint` above U+00FF, used by the `%q` verb. -/
  isPrint : Char → Bool
  /-- The constructor `runc.NewWorkerOpt`. -/
  newWorkerOpt : String → SnapshotterFactory → Bool → ProcessMode → Option StrMap →
    Except String WorkerOpt
  /-- The helper `getGCPolicy` of the `main` package. -/
  getGCPolicy : GCConfig → String → List GCPolicyRule
  /-- Modelled from the spec: `resolverFunc` is defined outside `main_oci_worker.go`; it
  builds, from the registry settings of the configuration, the resolver capability that
  spec section 6 has passed through uninterpreted. -/
  resolverFunc : String → String
  /-- The helper `parsePlatforms` of the `main` package. -/
  parsePlatforms : List String → Except String (List String)
  /-- The constructor `base.NewWorker`. -/
  newWorker : WorkerOpt → Except String Worker

/-! ## `applyOCIFlags` -/

/-- The loop `for k, v := range labels { dst[k] = v }`. -/
def mergeLabels (dst labels : StrMap) : StrMap :=
  labels.entries.foldl (fun m kv => m.set kv.1 kv.2) dst

/-- Lines 130 to 155 of `applyOCIFlags`: the overrides that cannot fail, in source
order. -/
def applyScalarFlags (c : Context) (cfg : Config) : Config :=
  let cfg : Config :=
    if c.GlobalIsSet "oci-worker-snapshotter" then
      { cfg with OCI := { cfg.OCI with Snapshotter := c.GlobalString "oci-worker-snapshotter" } }
    else cfg
  let cfg : Config :=
    if c.GlobalIsSet "rootless" || c.GlobalBool "rootless" then
      { cfg with OCI := { cfg.OCI with Rootless := c.GlobalBool "rootless" } }
    else cfg
  let cfg : Config :=
    if c.GlobalIsSet "oci-worker-rootless" then
      { cfg with OCI := { cfg.OCI with Rootless := c.GlobalBool "oci-worker-rootless" } }
    else cfg
  let cfg : Config :=
    if c.GlobalIsSet "oci-worker-no-process-sandbox" then
      { cfg with OCI := { cfg.OCI with
          NoProcessSandbox := c.GlobalBool "oci-worker-no-process-sandbox" } }
    else cfg
  let cfg : Config :=
    if (c.GlobalStringSlice "oci-worker-platform").length ≠ 0 then
      { cfg with OCI := { cfg.OCI with Platforms := c.GlobalStringSlice "oci-worker-platform" } }
    else cfg
  let cfg : Config :=
    if c.GlobalIsSet "oci-worker-gc" then
      { cfg with OCI := { cfg.OCI with
          GCConfig := { cfg.OCI.GCConfig with GC := some (c.GlobalBool "oci-worker-gc") } } }
    else cfg
  let cfg : Config :=
    if c.GlobalIsSet "oci-worker-gc-keepstorage" then
      { cfg with OCI := { cfg.OCI with
          GCConfig := { cfg.OCI.GCConfig with
            GCKeepStorage := wrapInt64 (c.GlobalInt64 "oci-worker-gc-keepstorage" * 1000000) } } }
    else cfg
  cfg

/-- Lines 120 to 157 of `applyOCIFlags`: the label batch is parsed as a whole, merged into
the (possibly nil) label map, and the remaining overrides follow. -/
def applyLabelFlags (host : Host) (c : Context) (cfg : Config) : Config × Option String :=
  match host.attrMap (c.GlobalStringSlice "oci-worker-labels") with
  | .error err => (cfg, some err)
  | .ok labels =>
    let dst : StrMap :=
      match cfg.OCI.Labels with
      | none => StrMap.empty
      | some m => m
    let cfg : Config := { cfg with OCI := { cfg.OCI with Labels := some (mergeLabels dst labels) } }
    (applyScalarFlags c cfg, none)

/-- The function `applyOCIFlags(c, cfg)`: the configuration left in `*cfg` and the error
returned (`none` for nil). -/
def applyOCIFlags (host : Host) (c : Context) (cfg : Config) : Config × Option String :=
  let cfg : Config :=
    if cfg.OCI.Snapshotter = "" then { cfg with OCI := { cfg.OCI with Snapshotter := "auto" } }
    else cfg
  if c.GlobalIsSet "oci-worker" then
    match host.parseBoolOrAuto (c.GlobalString "oci-worker") with
    | .error err => (cfg, some err)
    | .ok boolOrAuto =>
      applyLabelFlags host c { cfg with OCI := { cfg.OCI with Enabled := boolOrAuto } }
  else applyLabelFlags host c cfg

/-! ## The `%q` verb -/

/-- The digit `lowerhex[n]` of Go's `strconv`. -/
def lowerhex (n : Nat) : Char := "0123456789abcdef".data.getD n '0'

/-- The loop `for s := 4*(width-1); s >= 0; s -= 4` of `strconv.appendEscapedRune`: the
`width` low hexadecimal digits of `n`, most significant first. -/
def hexDigits : Nat → Nat → List Char
  | 0, _ => []
  | width + 1, n => lowerhex (n / 16 ^ width % 16) :: hexDigits width n

/-- Go's `strconv.IsPrint`: decided by range up to U+00FF, by the host's table above. -/
def isPrintRune (host : Host) (r : Char) : Bool :=
  if r.toNat ≤ 0xFF then
    if 0x20 ≤ r.toNat ∧ r.toNat < 0x7F then true
    else if 0xA1 ≤ r.toNat ∧ r.toNat ≤ 0xFF then r.toNat ≠ 0xAD
    else false
  else host.isPrint r

/-- Go's `strconv.appendEscapedRune` for the double quote, on a valid rune. -/
def appendEscapedRune (host : Host) (r : Char) : List Char :=
  if r = '"' ∨ r = '\\' then ['\\', r]
  else if isPrintRune host r then [r]
  else if r.toNat = 0x07 then ['\\', 'a']
  else if r.toNat = 0x08 then ['\\', 'b']
  else if r.toNat = 0x0C then ['\\', 'f']
  else if r.toNat = 0x0A then ['\\', 'n']
  else if r.toNat = 0x0D then ['\\', 'r']
  else if r.toNat = 0x09 then ['\\', 't']
  else if r.toNat = 0x0B then ['\\', 'v']
  else if r.toNat < 0x20 ∨ r.toNat = 0x7F then '\\' :: 'x' :: hexDigits 2 r.toNat
  else if r.toNat < 0x10000 then '\\' :: 'u' :: hexDigits 4 r.toNat
  else '\\' :: 'U' :: hexDigits 8 r.toNat

/-- Go's `strconv.Quote`, which formats a string under the `%q` verb: the escaped runes
between double quotes. -/
def quote (host : Host) (s : String) : String :=
  ⟨'"' :: (s.data.flatMap (appendEscapedRune host) ++ ['"'])⟩

/-- A string occurs in another as a contiguous run of characters. -/
def contains (s sub : String) : Prop := sub.data <:+: s.data

instance (s sub : String) : Decidable (contains s sub) := by unfold contains; infer_instance

/-! ## The trace -/

/-- A call that leaves the file, or a log line, with its arguments. -/
inductive Event where
  | lookPath (file : String)
  | overlaySupported (root : String)
  | debug (msg : String)
  | warn (msg : String)
  | newWorkerOpt (root : String) (snFactory : SnapshotterFactory) (rootless : Bool)
      (processMode : ProcessMode) (labels : Option StrMap)
  | newWorker (opt : WorkerOpt)
  deriving DecidableEq

/-- The event is a call of `exec.LookPath`. -/
def Event.isLookPath : Event → Bool
  | .lookPath _ => true
  | _ => false

/-- The event is a call of `overlay.Supported`. -/
def Event.isOverlaySupported : Event → Bool
  | .overlaySupported _ => true
  | _ => false

/-- The event is a call of `runc.NewWorkerOpt` or of `base.NewWorker`. -/
def Event.isConstruction : Event → Bool
  | .newWorkerOpt _ _ _ _ _ => true
  | .newWorker _ => true
  | _ => false

/-! ## `validOCIBinary` and `snapshotterFactory` -/

/-- The function `validOCIBinary()`: both lookups are made, then the answer. -/
def validOCIBinary (host : Host) : List Event × Bool :=
  let err := !host.lookPath "runc"
  let err1 := !host.lookPath "buildkit-runc"
  if err && err1 then
    ([.lookPath "runc", .lookPath "buildkit-runc",
      .warn "skipping oci worker, as runc does not exist"], false)
  else ([.lookPath "runc", .lookPath "buildkit-runc"], true)

/-- The function `snapshotterFactory(commonRoot, name)`: the trace, the factory returned
and the error (`none` for nil). -/
def snapshotterFactory (host : Host) (commonRoot name : String) :
    List Event × SnapshotterFactory × Option String :=
  let resolved : List Event × String :=
    if name = "auto" then
      match host.overlaySupported commonRoot with
      | none =>
        ([.overlaySupported commonRoot, .debug "auto snapshotter: using overlayfs"], "overlayfs")
      | some err =>
        ([.overlaySupported commonRoot,
          .debug ("auto snapshotter: using native, because overlayfs is not available for "
            ++ commonRoot ++ ": " ++ err)], "native")
    else ([], name)
  let name := resolved.2
  let snFactory : SnapshotterFactory := { Name := name, New := none }
  if name = "native" then (resolved.1, { snFactory with New := some .native }, none)
  else if name = "overlayfs" then (resolved.1, { snFactory with New := some .overlay }, none)
  else (resolved.1, snFactory, some ("unknown snapshotter name: " ++ quote host name))

/-! ## `ociWorkerInitializer` -/

/-- The argument `workerInitializerOpt`, of which the file reads `config`. -/
structure workerInitializerOpt where
  config : Config

/-- What a run of `ociWorkerInitializer` produces: the trace, the worker slice returned
(nil is `[]`) and the error returned (`none` for nil). -/
structure Outcome where
  trace : List Event
  workers : List Worker
  err : Option String
  deriving DecidableEq

/-- The message of `errors.Wrap(err, msg)`. -/
def wrapError (err msg : String) : String := msg ++ ": " ++ err

/-- The warning logged when `NoProcessSandbox` is set. -/
def noProcessSandboxWarning : String :=
  "NoProcessSandbox is enabled. Note that NoProcessSandbox allows build containers to kill (and potentially ptrace) an arbitrary process in the BuildKit host namespace. NoProcessSandbox should be enabled only when the BuildKit is running in a container as an unprivileged user."

/-- Lines 189 to 207 of `ociWorkerInitializer`: the two construction steps, with the
platform override between them. -/
def constructWorker (host : Host) (config : Config) (snFactory : SnapshotterFactory)
    (processMode : ProcessMode) (trace : List Event) : Outcome :=
  let cfg := config.OCI
  let trace := trace ++ [.newWorkerOpt config.Root snFactory cfg.Rootless processMode cfg.Labels]
  match host.newWorkerOpt config.Root snFactory cfg.Rootless processMode cfg.Labels with
  | .error err => ⟨trace, [], some err⟩
  | .ok opt =>
    let opt := { opt with GCPolicy := host.getGCPolicy cfg.GCConfig config.Root }
    let opt := { opt with ResolveOptionsFunc := host.resolverFunc config.Registries }
    let finish (opt : WorkerOpt) : Outcome :=
      match host.newWorker opt with
      | .error err => ⟨trace ++ [.newWorker opt], [], some err⟩
      | .ok w => ⟨trace ++ [.newWorker opt], [w], none⟩
    if cfg.Platforms.length ≠ 0 then
      match host.parsePlatforms cfg.Platforms with
      | .error err => ⟨trace, [], some (wrapError err "invalid platforms")⟩
      | .ok platforms => finish { opt with Platforms := platforms }
    else finish opt

/-- Lines 165 to 208 of `ociWorkerInitializer`: what follows `applyOCIFlags`, on the
configuration it left. -/
def activate (host : Host) (config : Config) : Outcome :=
  let cfg := config.OCI
  let gate : List Event × Bool :=
    match cfg.Enabled with
    | none => ((validOCIBinary host).1, !(validOCIBinary host).2)
    | some enabled => ([], !enabled)
  if gate.2 then ⟨gate.1, [], none⟩
  else
    let sn := snapshotterFactory host config.Root cfg.Snapshotter
    let trace := gate.1 ++ sn.1
    match sn.2.2 with
    | some err => ⟨trace, [], some err⟩
    | none =>
      let trace := if cfg.Rootless then trace ++ [.debug "running in rootless mode"] else trace
      if cfg.NoProcessSandbox then
        let trace := trace ++ [.warn noProcessSandboxWarning]
        if !cfg.Rootless then
          ⟨trace, [], some "can't enable NoProcessSandbox without Rootless"⟩
        else constructWorker host config sn.2.1 .NoProcessSandbox trace
      else constructWorker host config sn.2.1 .ProcessSandbox trace

/-- The function `ociWorkerInitializer(c, common)`. -/
def ociWorkerInitializer (host : Host) (c : Context) (common : workerInitializerOpt) :
    Outcome :=
  match applyOCIFlags host c common.config with
  | (_, some err) => ⟨[], [], some err⟩
  | (config, none) => activate host config

/-! ## Notions used in the statements -/

/-- The base configuration after line 110: an empty driver name has become `auto`. -/
def defaultSnapshotter (B : Config) : Config :=
  if B.OCI.Snapshotter = "" then { B with OCI := { B.OCI with Snapshotter := "auto" } } else B

/-- What a successful `applyOCIFlags` leaves in `*cfg`, field by field: `en` is the
enablement after line 118 and `L` the parsed label batch. -/
def mergedConfig (c : Context) (B : Config) (L : StrMap) (en : Option Bool) : Config :=
  { Root := B.Root
    Registries := B.Registries
    OCI :=
      { Enabled := en
        Labels := some (mergeLabels (B.OCI.Labels.getD StrMap.empty) L)
        Platforms :=
          if (c.GlobalStringSlice "oci-worker-platform").length ≠ 0 then
            c.GlobalStringSlice "oci-worker-platform"
          else B.OCI.Platforms
        Snapshotter :=
          if c.GlobalIsSet "oci-worker-snapshotter" then c.GlobalString "oci-worker-snapshotter"
          else if B.OCI.Snapshotter = "" then "auto" else B.OCI.Snapshotter
        Rootless :=
          if c.GlobalIsSet "oci-worker-rootless" then c.GlobalBool "oci-worker-rootless"
          else if c.GlobalIsSet "rootless" || c.GlobalBool "rootless" then c.GlobalBool "rootless"
          else B.OCI.Rootless
        NoProcessSandbox :=
          if c.GlobalIsSet "oci-worker-no-process-sandbox" then
            c.GlobalBool "oci-worker-no-process-sandbox"
          else B.OCI.NoProcessSandbox
        GCConfig :=
          { GC :=
              if c.GlobalIsSet "oci-worker-gc" then some (c.GlobalBool "oci-worker-gc")
              else B.OCI.GCConfig.GC
            GCKeepStorage :=
              if c.GlobalIsSet "oci-worker-gc-keepstorage" then
                wrapInt64 (c.GlobalInt64 "oci-worker-gc-keepstorage" * 1000000)
              else B.OCI.GCConfig.GCKeepStorage
            GCPolicy := B.OCI.GCConfig.GCPolicy } } }

/-- The enablement after line 118 of `applyOCIFlags`, or the error of line 115. -/
def resolveEnabled (host : Host) (c : Context) (B : Config) : Except String (Option Bool) :=
  if c.GlobalIsSet "oci-worker" then host.parseBoolOrAuto (c.GlobalString "oci-worker")
  else .ok B.OCI.Enabled

/-- The read `labels[k]` on a possibly nil map: a nil map holds no key. -/
def labelOf (labels : Option StrMap) (k : String) : Option String :=
  match labels with
  | none => none
  | some m => m.get k

/-- A rune that `%q` copies unchanged: printable, and neither the double quote nor the
backslash. -/
def copiedVerbatim (host : Host) (r : Char) : Prop :=
  r ≠ '"' ∧ r ≠ '\\' ∧ isPrintRune host r = true

instance (host : Host) (r : Char) : Decidable (copiedVerbatim host r) := by
  unfold copiedVerbatim; infer_instance

/-! ## Sample inputs -/

/-- A label parser in the shape of `attrMap`: each string is split at its first `=`,
later entries overwrite earlier ones, and a string without `=` is refused. -/
def sampleAttrMap (sl : List String) : Except String StrMap :=
  sl.foldl (fun acc s =>
    match acc with
    | .error e => .error e
    | .ok m =>
      match s.data.span (fun ch => ch != '=') with
      | (_, []) => .error ("invalid value " ++ s)
      | (k, _ :: v) => .ok (m.set ⟨k⟩ ⟨v⟩)) (.ok StrMap.empty)

/-- A host on which only `buildkit-runc` is on the search path, overlayfs is usable and
every construction step succeeds. -/
def sampleHost : Host where
  parseBoolOrAuto s :=
    if s = "auto" then .ok none
    else if s = "true" then .ok (some true)
    else if s = "false" then .ok (some false)
    else .error ("invalid boolean: " ++ s)
  attrMap := sampleAttrMap
  lookPath file := file = "buildkit-runc"
  overlaySupported _ := none
  isPrint _ := true
  newWorkerOpt root sn _ _ _ := .ok ⟨root ++ "/" ++ sn.Name, [], "", ["linux/amd64"]⟩
  getGCPolicy _ _ := ["default"]
  resolverFunc _ := "resolver"
  parsePlatforms ps := .ok ps
  newWorker opt := .ok ⟨opt.made⟩

/-- The host `sampleHost` with neither `runc` nor `buildkit-runc` on the search path. -/
def bareHost : Host := { sampleHost with lookPath := fun _ => false }

/-- A command line on which no flag was given. -/
def noFlags : Context where
  GlobalIsSet _ := false
  GlobalString _ := ""
  GlobalBool _ := false
  GlobalStringSlice _ := []
  GlobalInt64 _ := 0

/-- A command line giving one string flag. -/
def oneStringFlag (name value : String) : Context :=
  { noFlags with
    GlobalIsSet := fun n => n = name
    GlobalString := fun n => if n = name then value else "" }

/-- A command line giving only label strings. -/
def labelFlags (labels : List String) : Context :=
  { noFlags with
    GlobalStringSlice := fun n => if n = "oci-worker-labels" then labels else [] }

/-- A command line giving only `--oci-worker-gc-keepstorage`. -/
def keepStorageFlag (megabytes : Int) : Context :=
  { noFlags with
    GlobalIsSet := fun n => n = "oci-worker-gc-keepstorage"
    GlobalInt64 := fun n => if n = "oci-worker-gc-keepstorage" then megabytes else 0 }

/-- A command line giving `--oci-worker=true` and label strings. -/
def enableWithLabels (labels : List String) : Context :=
  { oneStringFlag "oci-worker" "true" with
    GlobalStringSlice := fun n => if n = "oci-worker-labels" then labels else [] }

/-- A base configuration with every field at its Go zero value. -/
def zeroConfig : Config :=
  ⟨"/var/lib/buildkit", "", ⟨none, none, [], "", false, false, ⟨none, 0, []⟩⟩⟩

/-- A base configuration that is already resolved: driver `auto`, one label. -/
def autoConfig : Config :=
  ⟨"/var/lib/buildkit", "",
    ⟨none, some (StrMap.empty.set "org" "acme"), [], "auto", false, false, ⟨none, 0, []⟩⟩⟩

/-- The configuration `autoConfig` asking for sandbox bypass without rootless. -/
def bypassConfig (enabled : Option Bool) : Config :=
  { autoConfig with OCI := { autoConfig.OCI with Enabled := enabled, NoProcessSandbox := true } }

/-- A command line giving one boolean flag. -/
def oneBoolFlag (name : String) (value : Bool) : Context :=
  { noFlags with
    GlobalIsSet := fun n => n = name
    GlobalBool := fun n => if n = name then value else false }

/-! ## The activation pass, stage by stage -/

/-- The gate of line 167 lets the run through: enablement is explicitly true, or unset
with `runc` or `buildkit-runc` on the search path. -/
def activates (host : Host) (config : Config) : Prop :=
  config.OCI.Enabled = some true ∨
    (config.OCI.Enabled = none ∧
      (host.lookPath "runc" = true ∨ host.lookPath "buildkit-runc" = true))

instance (host : Host) (config : Config) : Decidable (activates host config) := by
  unfold activates; infer_instance

/-- Lines 180 to 187 of `ociWorkerInitializer`: the process mode handed to
`runc.NewWorkerOpt`. -/
def processModeOf (config : Config) : ProcessMode :=
  if config.OCI.NoProcessSandbox then .NoProcessSandbox else .ProcessSandbox

/-- Lines 176 to 182 of `ociWorkerInitializer`: the log lines between driver resolution
and the sandbox/rootless check. -/
def preamble (config : Config) : List Event :=
  (if config.OCI.Rootless then [Event.debug "running in rootless mode"] else []) ++
    (if config.OCI.NoProcessSandbox then [Event.warn noProcessSandboxWarning] else [])

/-- Lines 193 to 201 of `ociWorkerInitializer`: the options handed to `base.NewWorker`,
from those `runc.NewWorkerOpt` returned and the platforms in force. -/
def assembleOpt (host : Host) (config : Config) (opt : WorkerOpt) (platforms : List String) :
    WorkerOpt :=
  { made := opt.made
    GCPolicy := host.getGCPolicy config.OCI.GCConfig config.Root
    ResolveOptionsFunc := host.resolverFunc config.Registries
    Platforms := platforms }

/-- Lines 196 to 202 of `ociWorkerInitializer`: the platforms in force are those parsed
from a non-empty `Platforms` list, or else those `runc.NewWorkerOpt` chose. -/
def platformsResolve (host : Host) (config : Config) (opt : WorkerOpt)
    (platforms : List String) : Prop :=
  if config.OCI.Platforms = [] then platforms = opt.Platforms
  else host.parsePlatforms config.OCI.Platforms = .ok platforms

/-- Lines 171 to 208 of `ociWorkerInitializer` in one expression: the run once the gate of
line 167 is passed, with its own trace. -/
def afterGate (host : Host) (config : Config) : Outcome :=
  match (snapshotterFactory host config.Root config.OCI.Snapshotter).2.2 with
  | some err => ⟨(snapshotterFactory host config.Root config.OCI.Snapshotter).1, [], some err⟩
  | none =>
    if config.OCI.NoProcessSandbox = true ∧ config.OCI.Rootless = false then
      ⟨(snapshotterFactory host config.Root config.OCI.Snapshotter).1 ++ preamble config, [],
        some "can't enable NoProcessSandbox without Rootless"⟩
    else
      ⟨(snapshotterFactory host config.Root config.OCI.Snapshotter).1 ++ preamble config ++
          (constructWorker host config
            (snapshotterFactory host config.Root config.OCI.Snapshotter).2.1
            (processModeOf config) []).trace,
        (constructWorker host config
          (snapshotterFactory host config.Root config.OCI.Snapshotter).2.1
          (processModeOf config) []).workers,
        (constructWorker host config
          (snapshotterFactory host config.Root config.OCI.Snapshotter).2.1
          (processModeOf config) []).err⟩

/-- The search-path lookups the gate of line 167 makes: two when enablement is unset,
none otherwise. -/
def gateLookups (config : Config) : List Event :=
  match config.OCI.Enabled with
  | none => [.lookPath "runc", .lookPath "buildkit-runc"]
  | some _ => []

/-! ## Further sample inputs -/

/-- The configuration `autoConfig` naming the driver `zfs`, which the file does not
know. -/
def zfsConfig (enabled : Option Bool) : Config :=
  { autoConfig with OCI := { autoConfig.OCI with Enabled := enabled, Snapshotter := "zfs" } }

/-- The configuration `autoConfig` in rootless mode, with or without sandbox bypass. -/
def rootlessConfig (bypass : Bool) : Config :=
  { autoConfig with OCI := { autoConfig.OCI with
      Enabled := some true, Rootless := true, NoProcessSandbox := bypass } }

/-! ## Facts about `applyOCIFlags` -/

theorem applyScalarFlags_eq (c : Context) (cfg : Config) :
    applyScalarFlags c cfg =
      { Root := cfg.Root
        Registries := cfg.Registries
        OCI :=
          { Enabled := cfg.OCI.Enabled
            Labels := cfg.OCI.Labels
            Platforms :=
              if (c.GlobalStringSlice "oci-worker-platform").length ≠ 0 then
                c.GlobalStringSlice "oci-worker-platform"
              else cfg.OCI.Platforms
            Snapshotter :=
              if c.GlobalIsSet "oci-worker-snapshotter" then
                c.GlobalString "oci-worker-snapshotter"
              else cfg.OCI.Snapshotter
            Rootless :=
              if c.GlobalIsSet "oci-worker-rootless" then c.GlobalBool "oci-worker-rootless"
              else if c.GlobalIsSet "rootless" || c.GlobalBool "rootless" then
                c.GlobalBool "rootless"
              else cfg.OCI.Rootless
            NoProcessSandbox :=
              if c.GlobalIsSet "oci-worker-no-process-sandbox" then
                c.GlobalBool "oci-worker-no-process-sandbox"
              else cfg.OCI.NoProcessSandbox
            GCConfig :=
              { GC :=
                  if c.GlobalIsSet "oci-worker-gc" then some (c.GlobalBool "oci-worker-gc")
                  else cfg.OCI.GCConfig.GC
                GCKeepStorage :=
                  if c.GlobalIsSet "oci-worker-gc-keepstorage" then
                    wrapInt64 (c.GlobalInt64 "oci-worker-gc-keepstorage" * 1000000)
                  else cfg.OCI.GCConfig.GCKeepStorage
                GCPolicy := cfg.OCI.GCConfig.GCPolicy } } } := by
  obtain ⟨root, reg, ⟨en, lbl, plat, sn, rl, nps, ⟨gc, ks, pol⟩⟩⟩ := cfg
  unfold applyScalarFlags
  generalize (c.GlobalIsSet "rootless" || c.GlobalBool "rootless") = p2
  generalize c.GlobalIsSet "oci-worker-snapshotter" = p1
  generalize c.GlobalIsSet "oci-worker-rootless" = p4
  generalize c.GlobalIsSet "oci-worker-no-process-sandbox" = p5
  generalize c.GlobalIsSet "oci-worker-gc" = p6
  generalize c.GlobalIsSet "oci-worker-gc-keepstorage" = p7
  generalize c.GlobalStringSlice "oci-worker-platform" = ps
  cases ps <;> cases p1 <;> cases p2 <;> cases p4 <;> cases p5 <;> cases p6 <;> cases p7 <;> rfl

theorem applyLabelFlags_error (host : Host) (c : Context) (cfg : Config) (e : String)
    (h : host.attrMap (c.GlobalStringSlice "oci-worker-labels") = .error e) :
    applyLabelFlags host c cfg = (cfg, some e) := by
  unfold applyLabelFlags
  rw [h]

theorem applyLabelFlags_ok (host : Host) (c : Context) (cfg : Config) (L : StrMap)
    (h : host.attrMap (c.GlobalStringSlice "oci-worker-labels") = .ok L) :
    applyLabelFlags host c cfg =
      (applyScalarFlags c { cfg with OCI := { cfg.OCI with
        Labels := some (mergeLabels (cfg.OCI.Labels.getD StrMap.empty) L) } }, none) := by
  unfold applyLabelFlags
  rw [h]
  cases hl : cfg.OCI.Labels <;> rfl

theorem applyOCIFlags_eq (host : Host) (c : Context) (B : Config) :
    applyOCIFlags host c B =
      match resolveEnabled host c B with
      | .error e => (defaultSnapshotter B, some e)
      | .ok en =>
        match host.attrMap (c.GlobalStringSlice "oci-worker-labels") with
        | .error e =>
          ({ defaultSnapshotter B with OCI := { (defaultSnapshotter B).OCI with Enabled := en } },
            some e)
        | .ok L => (mergedConfig c B L en, none) := by
  have hmerged : ∀ L en,
      applyScalarFlags c { defaultSnapshotter B with OCI := { (defaultSnapshotter B).OCI with
        Enabled := en
        Labels := some (mergeLabels ((defaultSnapshotter B).OCI.Labels.getD StrMap.empty) L) } } =
      mergedConfig c B L en := by
    intro L en
    rw [applyScalarFlags_eq]
    unfold defaultSnapshotter mergedConfig
    by_cases hs : B.OCI.Snapshotter = "" <;> simp [hs]
  have hlabel : ∀ cfg : Config, cfg.Root = (defaultSnapshotter B).Root →
      cfg.Registries = (defaultSnapshotter B).Registries →
      cfg.OCI = { (defaultSnapshotter B).OCI with Enabled := cfg.OCI.Enabled } →
      applyLabelFlags host c cfg =
        match host.attrMap (c.GlobalStringSlice "oci-worker-labels") with
        | .error e => (cfg, some e)
        | .ok L => (mergedConfig c B L cfg.OCI.Enabled, none) := by
    intro cfg h1 h2 h3
    cases ha : host.attrMap (c.GlobalStringSlice "oci-worker-labels") with
    | error e => simp [applyLabelFlags_error host c cfg e ha]
    | ok L =>
      simp only [applyLabelFlags_ok host c cfg L ha]
      rw [← hmerged L cfg.OCI.Enabled]
      obtain ⟨root, reg, oci⟩ := cfg
      simp only at h1 h2 h3
      subst h1 h2
      rw [h3]
  unfold applyOCIFlags resolveEnabled
  by_cases h0 : c.GlobalIsSet "oci-worker" = true
  · simp only [h0, if_true]
    cases hp : host.parseBoolOrAuto (c.GlobalString "oci-worker") with
    | error e => rfl
    | ok en =>
      have := hlabel { defaultSnapshotter B with OCI := { (defaultSnapshotter B).OCI with
        Enabled := en } } rfl rfl rfl
      simp only [defaultSnapshotter] at this ⊢
      rw [this]
  · simp only [h0]
    have := hlabel (defaultSnapshotter B) rfl rfl rfl
    simp only [defaultSnapshotter] at this ⊢
    rw [this]
    by_cases hs : B.OCI.Snapshotter = "" <;> simp [hs]

theorem applyOCIFlags_success (host : Host) (c : Context) (B cfg' : Config)
    (hres : applyOCIFlags host c B = (cfg', none)) :
    ∃ en L, resolveEnabled host c B = .ok en ∧
      host.attrMap (c.GlobalStringSlice "oci-worker-labels") = .ok L ∧
      cfg' = mergedConfig c B L en := by
  rw [applyOCIFlags_eq] at hres
  cases he : resolveEnabled host c B with
  | error e => simp [he] at hres
  | ok en =>
    cases ha : host.attrMap (c.GlobalStringSlice "oci-worker-labels") with
    | error e => simp [he, ha] at hres
    | ok L =>
      simp only [he, ha, Prod.mk.injEq, and_true] at hres
      exact ⟨en, L, rfl, rfl, hres.symm⟩

/-! ## Facts about label maps -/

theorem lookupEntries_setEntries (k v k' : String) (l : List (String × String)) :
    lookupEntries k' (setEntries k v l) = if k' = k then some v else lookupEntries k' l := by
  induction l with
  | nil =>
    by_cases h : k' = k
    · simp [setEntries, lookupEntries, h]
    · have h' : ¬ k = k' := fun e => h e.symm
      simp [setEntries, lookupEntries, h, h']
  | cons e t ih =>
    obtain ⟨k0, v0⟩ := e
    by_cases h0 : k0 = k
    · subst h0
      by_cases h : k' = k0
      · simp [setEntries, lookupEntries, h]
      · have h' : ¬ k0 = k' := fun e => h e.symm
        simp [setEntries, lookupEntries, h, h']
    · simp only [setEntries, if_neg h0, lookupEntries, ih]
      by_cases h : k0 = k'
      · have hk : ¬ k' = k := fun e => h0 (h.trans e)
        simp [h, hk]
      · simp [h]

theorem lookupEntries_eq_none (k : String) (l : List (String × String))
    (h : k ∉ l.map Prod.fst) : lookupEntries k l = none := by
  induction l with
  | nil => rfl
  | cons e t ih =>
    obtain ⟨k0, v0⟩ := e
    simp only [List.map_cons, List.mem_cons, not_or] at h
    have h0 : ¬ k0 = k := fun e => h.1 e.symm
    simp [lookupEntries, h0, ih h.2]

theorem get_foldl_set (k : String) (l : List (String × String))
    (hl : (l.map Prod.fst).Nodup) (dst : StrMap) :
    (l.foldl (fun m kv => m.set kv.1 kv.2) dst).get k =
      match lookupEntries k l with
      | some v => some v
      | none => dst.get k := by
  induction l generalizing dst with
  | nil => rfl
  | cons e t ih =>
    obtain ⟨k0, v0⟩ := e
    rw [List.map_cons, List.nodup_cons] at hl
    rw [List.foldl_cons, ih hl.2]
    have hset : (dst.set k0 v0).get k = if k = k0 then some v0 else dst.get k :=
      lookupEntries_setEntries k0 v0 k dst.entries
    by_cases h : k0 = k
    · subst h
      rw [lookupEntries_eq_none k0 t hl.1]
      simp [lookupEntries, hset]
    · have h' : ¬ k = k0 := fun e => h e.symm
      simp [lookupEntries, h, hset, h']

theorem get_mergeLabels (dst labels : StrMap) (k : String) :
    (mergeLabels dst labels).get k =
      match labels.get k with
      | some v => some v
      | none => dst.get k :=
  get_foldl_set k labels.entries labels.nodupKeys dst

theorem mergeLabels_empty (dst : StrMap) : mergeLabels dst StrMap.empty = dst := rfl

/-! ## Facts about the `%q` verb -/

theorem appendEscapedRune_verbatim (host : Host) (r : Char) (h : copiedVerbatim host r) :
    appendEscapedRune host r = [r] := by
  obtain ⟨h1, h2, h3⟩ := h
  simp [appendEscapedRune, h1, h2, h3]

theorem quote_verbatim (host : Host) (s : String)
    (h : ∀ r ∈ s.data, copiedVerbatim host r) :
    quote host s = ⟨'"' :: (s.data ++ ['"'])⟩ := by
  have key : ∀ l : List Char, (∀ r ∈ l, copiedVerbatim host r) →
      l.flatMap (appendEscapedRune host) = l := by
    intro l
    induction l with
    | nil => intro _; rfl
    | cons a t ih =>
      intro hl
      rw [List.flatMap_cons, appendEscapedRune_verbatim host a (hl a (List.mem_cons_self a t)),
        ih (fun r hr => hl r (List.mem_cons_of_mem a hr))]
      rfl
  unfold quote
  rw [key s.data h]

/-! ## Facts about the activation pass -/

theorem ociWorkerInitializer_resolved (host : Host) (c : Context) (common : workerInitializerOpt)
    (config : Config) (h : applyOCIFlags host c common.config = (config, none)) :
    ociWorkerInitializer host c common = activate host config := by
  unfold ociWorkerInitializer
  rw [h]

theorem validOCIBinary_missing (host : Host) (h : host.lookPath "runc" = false)
    (h1 : host.lookPath "buildkit-runc" = false) :
    validOCIBinary host =
      ([.lookPath "runc", .lookPath "buildkit-runc",
        .warn "skipping oci worker, as runc does not exist"], false) := by
  simp [validOCIBinary, h, h1]

theorem validOCIBinary_found (host : Host)
    (h : host.lookPath "runc" = true ∨ host.lookPath "buildkit-runc" = true) :
    validOCIBinary host = ([.lookPath "runc", .lookPath "buildkit-runc"], true) := by
  rcases h with h | h <;> simp [validOCIBinary, h]

theorem snapshotterFactory_trace (host : Host) (root name : String) :
    ∀ e ∈ (snapshotterFactory host root name).1,
      e.isConstruction = false ∧ e.isLookPath = false := by
  unfold snapshotterFactory
  by_cases hn : name = "auto"
  · cases ho : host.overlaySupported root <;>
      simp [hn, ho, Event.isConstruction, Event.isLookPath]
  · simp only [if_neg hn]
    split_ifs <;> simp

theorem constructWorker_trace (host : Host) (config : Config) (sn : SnapshotterFactory)
    (pm : ProcessMode) (t : List Event) :
    constructWorker host config sn pm t =
      ⟨t ++ (constructWorker host config sn pm []).trace,
        (constructWorker host config sn pm []).workers,
        (constructWorker host config sn pm []).err⟩ := by
  cases hopt : host.newWorkerOpt config.Root sn config.OCI.Rootless pm config.OCI.Labels with
  | error e => simp [constructWorker, hopt]
  | ok opt =>
    by_cases hp : config.OCI.Platforms = []
    · simp only [constructWorker, hopt, hp, List.length_nil, ne_eq, not_true_eq_false, if_false]
      split <;> simp [*]
    · have hp' : config.OCI.Platforms.length ≠ 0 := fun h => hp (List.length_eq_zero.mp h)
      cases hpp : host.parsePlatforms config.OCI.Platforms with
      | error e => simp [constructWorker, hopt, hp, hpp]
      | ok ps =>
        simp only [constructWorker, hopt, hp', hpp, if_true, ne_eq, not_false_eq_true]
        split <;> simp [*]

theorem constructWorker_lookPath (host : Host) (config : Config) (sn : SnapshotterFactory)
    (pm : ProcessMode) :
    ∀ e ∈ (constructWorker host config sn pm []).trace, e.isLookPath = false := by
  cases hopt : host.newWorkerOpt config.Root sn config.OCI.Rootless pm config.OCI.Labels with
  | error e => simp [constructWorker, hopt, Event.isLookPath]
  | ok opt =>
    by_cases hp : config.OCI.Platforms = []
    · simp only [constructWorker, hopt, hp, List.length_nil, ne_eq, not_true_eq_false, if_false]
      split <;> simp [*, Event.isLookPath]
    · have hp' : config.OCI.Platforms.length ≠ 0 := fun h => hp (List.length_eq_zero.mp h)
      cases hpp : host.parsePlatforms config.OCI.Platforms with
      | error e => simp [constructWorker, hopt, hp, hpp, Event.isLookPath]
      | ok ps =>
        simp only [constructWorker, hopt, hp', hpp, if_true, ne_eq, not_false_eq_true]
        split <;> simp [*, Event.isLookPath]

theorem constructWorker_result (host : Host) (config : Config) (sn : SnapshotterFactory)
    (pm : ProcessMode) (t : List Event) :
    ((constructWorker host config sn pm t).err ≠ none ∧
        (constructWorker host config sn pm t).workers = []) ∨
      ((constructWorker host config sn pm t).err = none ∧
        ∃ w, (constructWorker host config sn pm t).workers = [w]) := by
  cases hopt : host.newWorkerOpt config.Root sn config.OCI.Rootless pm config.OCI.Labels with
  | error e => simp [constructWorker, hopt]
  | ok opt =>
    by_cases hp : config.OCI.Platforms = []
    · simp only [constructWorker, hopt, hp, List.length_nil, ne_eq, not_true_eq_false, if_false]
      split <;> simp [*]
    · have hp' : config.OCI.Platforms.length ≠ 0 := fun h => hp (List.length_eq_zero.mp h)
      cases hpp : host.parsePlatforms config.OCI.Platforms with
      | error e => simp [constructWorker, hopt, hp, hpp]
      | ok ps =>
        simp only [constructWorker, hopt, hp', hpp, if_true, ne_eq, not_false_eq_true]
        split <;> simp [*]

theorem activate_disabled (host : Host) (config : Config)
    (h : config.OCI.Enabled = some false) : activate host config = ⟨[], [], none⟩ := by
  simp [activate, h]

theorem activate_missing (host : Host) (config : Config) (h : config.OCI.Enabled = none)
    (hr : host.lookPath "runc" = false) (hb : host.lookPath "buildkit-runc" = false) :
    activate host config =
      ⟨[.lookPath "runc", .lookPath "buildkit-runc",
        .warn "skipping oci worker, as runc does not exist"], [], none⟩ := by
  simp [activate, h, validOCIBinary_missing host hr hb]

theorem constructWorker_enabled (host : Host) (config : Config) (enabled : Option Bool)
    (sn : SnapshotterFactory) (pm : ProcessMode) (t : List Event) :
    constructWorker host { config with OCI := { config.OCI with Enabled := enabled } } sn pm t =
      constructWorker host config sn pm t := rfl

theorem constructWorker_cons_cons (host : Host) (config : Config) (sn : SnapshotterFactory)
    (pm : ProcessMode) (a b : Event) (t : List Event) :
    constructWorker host config sn pm (a :: b :: t) =
      ⟨a :: b :: (constructWorker host config sn pm t).trace,
        (constructWorker host config sn pm t).workers,
        (constructWorker host config sn pm t).err⟩ := by
  rw [constructWorker_trace host config sn pm (a :: b :: t),
    constructWorker_trace host config sn pm t]
  simp

theorem activate_found (host : Host) (config : Config) (h : config.OCI.Enabled = none)
    (hf : host.lookPath "runc" = true ∨ host.lookPath "buildkit-runc" = true) :
    activate host config =
      ⟨[.lookPath "runc", .lookPath "buildkit-runc"] ++
          (activate host { config with OCI := { config.OCI with Enabled := some true } }).trace,
        (activate host { config with OCI := { config.OCI with Enabled := some true } }).workers,
        (activate host { config with OCI := { config.OCI with Enabled := some true } }).err⟩ := by
  have hv := validOCIBinary_found host hf
  simp only [activate, h, hv, Bool.not_true, Bool.false_eq_true, if_false, List.nil_append,
    constructWorker_enabled]
  cases hsn : (snapshotterFactory host config.Root config.OCI.Snapshotter).2.2 with
  | some e => simp
  | none =>
    cases hr : config.OCI.Rootless <;> cases hn : config.OCI.NoProcessSandbox <;>
      simp [hr, hn] <;> exact constructWorker_cons_cons _ _ _ _ _ _ _

/-- The activation pass does not consult the search path once enablement is explicit. -/
theorem activate_explicit_lookPath (host : Host) (config : Config) (enabled : Bool)
    (h : config.OCI.Enabled = some enabled) :
    ∀ e ∈ (activate host config).trace, e.isLookPath = false := by
  have hsn := snapshotterFactory_trace host config.Root config.OCI.Snapshotter
  have hcw := constructWorker_lookPath host config
  cases enabled
  · simp [activate, h]
  · simp only [activate, h, Bool.not_true, Bool.false_eq_true, if_false, List.nil_append]
    cases hs : (snapshotterFactory host config.Root config.OCI.Snapshotter).2.2 with
    | some e => exact fun e he => (hsn e he).2
    | none =>
      cases hr : config.OCI.Rootless <;> cases hn : config.OCI.NoProcessSandbox <;>
        simp only [hr, hn, if_true, if_false, Bool.false_eq_true, Bool.not_true, Bool.not_false] <;>
        intro e he
      · rw [constructWorker_trace] at he
        rcases List.mem_append.mp he with he | he
        · exact (hsn e he).2
        · exact hcw _ _ e he
      · simp only [List.mem_append, List.mem_singleton] at he
        rcases he with he | he
        · exact (hsn e he).2
        · subst he; rfl
      · rw [constructWorker_trace] at he
        simp only [List.mem_append, List.mem_singleton] at he
        rcases he with (he | he) | he
        · exact (hsn e he).2
        · subst he; rfl
        · exact hcw _ _ e he
      · rw [constructWorker_trace] at he
        simp only [List.mem_append, List.mem_singleton] at he
        rcases he with ((he | he) | he) | he
        · exact (hsn e he).2
        · subst he; rfl
        · subst he; rfl
        · exact hcw _ _ e he

/-- With enablement explicitly true the pass ends in an error or in one worker. -/
theorem activate_enabled_result (host : Host) (config : Config)
    (h : config.OCI.Enabled = some true) :
    ((activate host config).err ≠ none ∧ (activate host config).workers = []) ∨
      ((activate host config).err = none ∧ ∃ w, (activate host config).workers = [w]) := by
  simp only [activate, h, Bool.not_true, Bool.false_eq_true, if_false, List.nil_append]
  cases hs : (snapshotterFactory host config.Root config.OCI.Snapshotter).2.2 with
  | some e => simp
  | none =>
    cases hr : config.OCI.Rootless <;> cases hn : config.OCI.NoProcessSandbox <;>
      simp only [hr, hn, if_true, if_false, Bool.false_eq_true, Bool.not_true, Bool.not_false]
    · exact constructWorker_result _ _ _ _ _
    · simp
    · exact constructWorker_result _ _ _ _ _
    · exact constructWorker_result _ _ _ _ _

/-- Changing what the search path holds does not change the pass once enablement is
explicit. -/
theorem activate_explicit_host (host : Host) (config : Config) (enabled : Bool)
    (h : config.OCI.Enabled = some enabled) (lp : String → Bool) :
    activate { host with lookPath := lp } config = activate host config := by
  simp only [activate, h]
  rfl

theorem applyOCIFlags_lookPath (host : Host) (c : Context) (cfg : Config)
    (lp : String → Bool) (ov : String → Option String) :
    applyOCIFlags { host with lookPath := lp, overlaySupported := ov } c cfg =
      applyOCIFlags host c cfg := rfl

/-- With enablement explicitly true the pass opens with driver resolution, whose error, if
any, is the result. -/
theorem activate_enabled_driver (host : Host) (config : Config)
    (h : config.OCI.Enabled = some true) :
    (snapshotterFactory host config.Root config.OCI.Snapshotter).1 <+:
        (activate host config).trace ∧
      ∀ e, (snapshotterFactory host config.Root config.OCI.Snapshotter).2.2 = some e →
        (activate host config).err = some e := by
  simp only [activate, h, Bool.not_true, Bool.false_eq_true, if_false, List.nil_append]
  cases hs : (snapshotterFactory host config.Root config.OCI.Snapshotter).2.2 with
  | some e => simp
  | none =>
    refine ⟨?_, fun e he => by cases he⟩
    cases hr : config.OCI.Rootless <;> cases hn : config.OCI.NoProcessSandbox <;>
      simp only [hr, hn, if_true, if_false, Bool.false_eq_true, Bool.not_true, Bool.not_false]
    · rw [constructWorker_trace]
      exact List.prefix_append _ _
    · exact List.prefix_append _ _
    · rw [constructWorker_trace, List.append_assoc]
      exact List.prefix_append _ _
    · rw [constructWorker_trace, List.append_assoc, List.append_assoc]
      exact List.prefix_append _ _

/-- Sandbox bypass without rootless, enablement explicitly true: an error, no worker, and
no construction call. -/
theorem activate_enabled_bypass (host : Host) (config : Config)
    (h : config.OCI.Enabled = some true) (hnps : config.OCI.NoProcessSandbox = true)
    (hroot : config.OCI.Rootless = false) :
    (activate host config).err ≠ none ∧ (activate host config).workers = [] ∧
      ∀ e ∈ (activate host config).trace, e.isConstruction = false := by
  have hsn := snapshotterFactory_trace host config.Root config.OCI.Snapshotter
  simp only [activate, h, hnps, hroot, Bool.not_true, Bool.false_eq_true, if_false,
    List.nil_append, if_true, Bool.not_false]
  cases hs : (snapshotterFactory host config.Root config.OCI.Snapshotter).2.2 with
  | some e => exact ⟨by simp, rfl, fun e he => (hsn e he).1⟩
  | none =>
    refine ⟨by simp, rfl, fun e he => ?_⟩
    simp only [List.mem_append, List.mem_singleton] at he
    rcases he with he | he
    · exact (hsn e he).1
    · subst he; rfl

theorem snapshotterFactory_auto (host : Host) (root : String) :
    (snapshotterFactory host root "auto").2.2 = none := by
  unfold snapshotterFactory
  cases ho : host.overlaySupported root <;> simp

/-! ## The activation pass in normal form -/

theorem constructWorker_one_worker (host : Host) (config : Config) (sn : SnapshotterFactory)
    (pm : ProcessMode) (t : List Event) (w : Worker) :
    (constructWorker host config sn pm t).workers = [w] ↔
      ∃ opt platforms,
        host.newWorkerOpt config.Root sn config.OCI.Rootless pm config.OCI.Labels = .ok opt ∧
          platformsResolve host config opt platforms ∧
          host.newWorker (assembleOpt host config opt platforms) = .ok w := by
  unfold platformsResolve assembleOpt
  cases hopt : host.newWorkerOpt config.Root sn config.OCI.Rootless pm config.OCI.Labels with
  | error e => simp [constructWorker, hopt]
  | ok opt =>
    by_cases hp : config.OCI.Platforms = []
    · simp only [constructWorker, hopt, hp, List.length_nil, ne_eq, not_true_eq_false, if_false,
        if_true, Except.ok.injEq, exists_and_left, exists_eq_left']
      cases hw : host.newWorker
        { made := opt.made, GCPolicy := host.getGCPolicy config.OCI.GCConfig config.Root,
          ResolveOptionsFunc := host.resolverFunc config.Registries,
          Platforms := opt.Platforms } with
      | error e => simp [hw]
      | ok w' => simp [hw]
    · have hp' : config.OCI.Platforms.length ≠ 0 := fun h => hp (List.length_eq_zero.mp h)
      cases hpp : host.parsePlatforms config.OCI.Platforms with
      | error e => simp [constructWorker, hopt, hp, hpp]
      | ok ps =>
        simp only [constructWorker, hopt, hp', hp, hpp, if_true, if_false, ne_eq,
          not_false_eq_true, Except.ok.injEq, exists_and_left, exists_eq_left']
        cases hw : host.newWorker
          { made := opt.made, GCPolicy := host.getGCPolicy config.OCI.GCConfig config.Root,
            ResolveOptionsFunc := host.resolverFunc config.Registries,
            Platforms := ps } with
        | error e => simp [hw]
        | ok w' => simp [hw]

theorem activate_enabled_eq (host : Host) (config : Config)
    (h : config.OCI.Enabled = some true) : activate host config = afterGate host config := by
  simp only [activate, afterGate, h, Bool.not_true, Bool.false_eq_true, if_false,
    List.nil_append, preamble, processModeOf]
  cases hs : (snapshotterFactory host config.Root config.OCI.Snapshotter).2.2 with
  | some e => rfl
  | none =>
    cases hr : config.OCI.Rootless <;> cases hn : config.OCI.NoProcessSandbox <;>
      simp [hr, hn] <;> (rw [constructWorker_trace]; try simp)

theorem afterGate_enabled (host : Host) (config : Config) (enabled : Option Bool) :
    afterGate host { config with OCI := { config.OCI with Enabled := enabled } } =
      afterGate host config := rfl

/-- An activating run is the gate's lookups followed by the run after the gate. -/
theorem activate_activating (host : Host) (config : Config) (h : activates host config) :
    activate host config =
      ⟨gateLookups config ++ (afterGate host config).trace, (afterGate host config).workers,
        (afterGate host config).err⟩ := by
  rcases h with h | ⟨h, hf⟩
  · rw [activate_enabled_eq host config h]
    simp [gateLookups, h]
  · rw [activate_found host config h hf, activate_enabled_eq host _ rfl, afterGate_enabled]
    simp [gateLookups, h]

/-- A run the gate stops returns nothing, after at most the lookups and the notice that
the worker is skipped. -/
theorem activate_not_activating (host : Host) (config : Config) (h : ¬ activates host config) :
    activate host config = ⟨[], [], none⟩ ∨
      activate host config =
        ⟨[.lookPath "runc", .lookPath "buildkit-runc",
          .warn "skipping oci worker, as runc does not exist"], [], none⟩ := by
  unfold activates at h
  cases he : config.OCI.Enabled with
  | none =>
    right
    have hr : host.lookPath "runc" = false := by
      cases hr : host.lookPath "runc"
      · rfl
      · exact absurd (Or.inr ⟨he, Or.inl hr⟩) h
    have hb : host.lookPath "buildkit-runc" = false := by
      cases hb : host.lookPath "buildkit-runc"
      · rfl
      · exact absurd (Or.inr ⟨he, Or.inr hb⟩) h
    exact activate_missing host config he hr hb
  | some b =>
    left
    cases b
    · exact activate_disabled host config he
    · exact absurd (Or.inl he) h

theorem constructWorker_events (host : Host) (config : Config) (sn : SnapshotterFactory)
    (pm : ProcessMode) :
    ∀ e ∈ (constructWorker host config sn pm []).trace,
      e = .newWorkerOpt config.Root sn config.OCI.Rootless pm config.OCI.Labels ∨
        ∃ opt, e = .newWorker opt := by
  cases hopt : host.newWorkerOpt config.Root sn config.OCI.Rootless pm config.OCI.Labels with
  | error e => simp [constructWorker, hopt]
  | ok opt =>
    by_cases hp : config.OCI.Platforms = []
    · simp only [constructWorker, hopt, hp, List.length_nil, ne_eq, not_true_eq_false, if_false]
      split <;> simp [*]
    · have hp' : config.OCI.Platforms.length ≠ 0 := fun h => hp (List.length_eq_zero.mp h)
      cases hpp : host.parsePlatforms config.OCI.Platforms with
      | error e => simp [constructWorker, hopt, hp, hpp]
      | ok ps =>
        simp only [constructWorker, hopt, hp', hpp, if_true, ne_eq, not_false_eq_true]
        split <;> simp [*]

theorem snapshotterFactory_events (host : Host) (root name : String) :
    ∀ e ∈ (snapshotterFactory host root name).1,
      e = .overlaySupported root ∨ ∃ msg, e = .debug msg := by
  unfold snapshotterFactory
  by_cases hn : name = "auto"
  · cases ho : host.overlaySupported root <;> simp [hn, ho]
  · simp only [if_neg hn]
    split_ifs <;> simp

theorem afterGate_result (host : Host) (config : Config) :
    ((afterGate host config).err ≠ none ∧ (afterGate host config).workers = []) ∨
      ((afterGate host config).err = none ∧ ∃ w, (afterGate host config).workers = [w]) := by
  unfold afterGate
  cases hs : (snapshotterFactory host config.Root config.OCI.Snapshotter).2.2 with
  | some e => simp
  | none =>
    by_cases hb : config.OCI.NoProcessSandbox = true ∧ config.OCI.Rootless = false
    · simp [hb]
    · simp only [if_neg hb]
      exact constructWorker_result _ _ _ _ _

theorem afterGate_one_worker (host : Host) (config : Config) (w : Worker) :
    (afterGate host config).workers = [w] ↔
      (snapshotterFactory host config.Root config.OCI.Snapshotter).2.2 = none ∧
        ¬ (config.OCI.NoProcessSandbox = true ∧ config.OCI.Rootless = false) ∧
        ∃ opt platforms,
          host.newWorkerOpt config.Root
              (snapshotterFactory host config.Root config.OCI.Snapshotter).2.1
              config.OCI.Rootless (processModeOf config) config.OCI.Labels = .ok opt ∧
            platformsResolve host config opt platforms ∧
            host.newWorker (assembleOpt host config opt platforms) = .ok w := by
  unfold afterGate
  cases hs : (snapshotterFactory host config.Root config.OCI.Snapshotter).2.2 with
  | some e => simp
  | none =>
    by_cases hb : config.OCI.NoProcessSandbox = true ∧ config.OCI.Rootless = false
    · simp [hb]
    · simp only [if_neg hb, hb, not_false_eq_true, true_and]
      exact constructWorker_one_worker _ _ _ _ _ _

/-- A construction call after the gate is made with the resolved rootless flag and the
process mode of lines 180 to 187, and only when the sandbox/rootless check passed. -/
theorem afterGate_construction (host : Host) (config : Config) :
    ∀ e ∈ (afterGate host config).trace, e.isConstruction = true →
      ¬ (config.OCI.NoProcessSandbox = true ∧ config.OCI.Rootless = false) ∧
        ∀ root sn rl pm labels, e = .newWorkerOpt root sn rl pm labels →
          rl = config.OCI.Rootless ∧ pm = processModeOf config := by
  have hsn := snapshotterFactory_trace host config.Root config.OCI.Snapshotter
  have hpre : ∀ e ∈ preamble config, e.isConstruction = false := by
    intro e he
    unfold preamble at he
    simp at he
    rcases he with ⟨_, rfl⟩ | ⟨_, rfl⟩ <;> rfl
  intro e he hc
  unfold afterGate at he
  cases hs : (snapshotterFactory host config.Root config.OCI.Snapshotter).2.2 with
  | some err =>
    simp only [hs] at he
    rw [(hsn e he).1] at hc
    cases hc
  | none =>
    simp only [hs] at he
    by_cases hb : config.OCI.NoProcessSandbox = true ∧ config.OCI.Rootless = false
    · simp only [if_pos hb, List.mem_append] at he
      rcases he with he | he
      · rw [(hsn e he).1] at hc
        cases hc
      · rw [hpre e he] at hc
        cases hc
    · simp only [if_neg hb, List.mem_append] at he
      rcases he with (he | he) | he
      · rw [(hsn e he).1] at hc
        cases hc
      · rw [hpre e he] at hc
        cases hc
      · refine ⟨hb, fun root sn rl pm labels heq => ?_⟩
        rcases constructWorker_events host config _ _ e he with h | ⟨opt, h⟩
        · rw [heq] at h
          cases h
          exact ⟨rfl, rfl⟩
        · rw [heq] at h
          cases h

theorem warning_ne_skip_notice :
    Event.warn "skipping oci worker, as runc does not exist" ≠
      Event.warn noProcessSandboxWarning := by
  decide

/-- Where the bypass warning stands in the run after the gate. -/
theorem afterGate_warning (host : Host) (config : Config) :
    ((snapshotterFactory host config.Root config.OCI.Snapshotter).2.2 = none →
      config.OCI.NoProcessSandbox = true →
      Event.warn noProcessSandboxWarning ∈ (afterGate host config).trace ∧
        (config.OCI.Rootless = false →
          (afterGate host config).trace.getLast? = some (.warn noProcessSandboxWarning) ∧
            (afterGate host config).err =
              some "can't enable NoProcessSandbox without Rootless")) ∧
    ((snapshotterFactory host config.Root config.OCI.Snapshotter).2.2 ≠ none ∨
        config.OCI.NoProcessSandbox = false →
      Event.warn noProcessSandboxWarning ∉ (afterGate host config).trace) := by
  have hsn : Event.warn noProcessSandboxWarning ∉
      (snapshotterFactory host config.Root config.OCI.Snapshotter).1 := by
    intro h
    rcases snapshotterFactory_events host _ _ _ h with h | ⟨msg, h⟩ <;> cases h
  have hcw : ∀ sn pm, Event.warn noProcessSandboxWarning ∉
      (constructWorker host config sn pm []).trace := by
    intro sn pm h
    rcases constructWorker_events host _ _ _ _ h with h | ⟨opt, h⟩ <;> cases h
  constructor
  · intro hs hn
    unfold afterGate
    simp only [hs, hn, true_and, preamble, if_true]
    cases hr : config.OCI.Rootless
    · simp
    · simp
  · intro h
    unfold afterGate
    cases hs : (snapshotterFactory host config.Root config.OCI.Snapshotter).2.2 with
    | some err => exact hsn
    | none =>
      rcases h with h | hn
      · exact absurd hs h
      · simp only [hn, Bool.false_eq_true, false_and, if_false, preamble, List.append_nil,
          List.mem_append, not_or]
        refine ⟨⟨hsn, ?_⟩, hcw _ _⟩
        cases config.OCI.Rootless <;> simp

theorem snapshotterFactory_unknown (host : Host) (root name : String) (h1 : name ≠ "auto")
    (h2 : name ≠ "native") (h3 : name ≠ "overlayfs") :
    snapshotterFactory host root name =
      ([], ⟨name, none⟩, some ("unknown snapshotter name: " ++ quote host name)) := by
  simp [snapshotterFactory, h1, h2, h3]

theorem mem_gateLookups (config : Config) :
    ∀ e ∈ gateLookups config, e.isLookPath = true := by
  intro e he
  cases h : config.OCI.Enabled <;> simp [gateLookups, h] at he
  rcases he with rfl | rfl <;> rfl

/-- The construction calls of a whole activation pass: none when the gate stops the run,
otherwise those of the run after the gate. -/
theorem activate_construction (host : Host) (config : Config) :
    ∀ e ∈ (activate host config).trace, e.isConstruction = true →
      ¬ (config.OCI.NoProcessSandbox = true ∧ config.OCI.Rootless = false) ∧
        ∀ root sn rl pm labels, e = .newWorkerOpt root sn rl pm labels →
          rl = config.OCI.Rootless ∧ pm = processModeOf config := by
  intro e he hc
  by_cases ha : activates host config
  · rw [activate_activating host config ha] at he
    simp only [List.mem_append] at he
    rcases he with he | he
    · have := mem_gateLookups config e he
      cases e <;> simp [Event.isLookPath, Event.isConstruction] at this hc
    · exact afterGate_construction host config e he hc
  · rcases activate_not_activating host config ha with h | h <;> rw [h] at he
    · cases he
    · simp only [List.mem_cons, List.mem_singleton, List.not_mem_nil, or_false] at he
      rcases he with rfl | rfl | rfl <;> cases hc

/-! ## The claims -/

/-- C1, refuted as stated: with enablement explicitly false, a resolved configuration
asking for sandbox bypass without rootless yields no error. -/
theorem bypass_check_skipped_when_disabled :
    applyOCIFlags sampleHost noFlags (bypassConfig (some false)) =
        (bypassConfig (some false), none) ∧
      (bypassConfig (some false)).OCI.NoProcessSandbox = true ∧
      (bypassConfig (some false)).OCI.Rootless = false ∧
      (ociWorkerInitializer sampleHost noFlags ⟨bypassConfig (some false)⟩).err = none := by
  decide

/-- C1, as amended: when the resolved configuration asks for sandbox bypass without
rootless and the backend is activating (enablement explicitly true, or unset with `runc`
or `buildkit-runc` on the search path), `ociWorkerInitializer` returns an error and no
worker, and calls neither construction routine, whatever the other fields and the overlay
probe; when the backend is not activating it returns no worker and no error. -/
theorem bypass_without_rootless_is_error (host : Host) (c : Context)
    (common : workerInitializerOpt) (config : Config)
    (hres : applyOCIFlags host c common.config = (config, none))
    (hnps : config.OCI.NoProcessSandbox = true) (hroot : config.OCI.Rootless = false) :
    ((config.OCI.Enabled = some true ∨
        (config.OCI.Enabled = none ∧
          (host.lookPath "runc" = true ∨ host.lookPath "buildkit-runc" = true))) →
      (ociWorkerInitializer host c common).err ≠ none ∧
        (ociWorkerInitializer host c common).workers = [] ∧
        ∀ e ∈ (ociWorkerInitializer host c common).trace, e.isConstruction = false) ∧
    ((config.OCI.Enabled = some false ∨
        (config.OCI.Enabled = none ∧ host.lookPath "runc" = false ∧
          host.lookPath "buildkit-runc" = false)) →
      (ociWorkerInitializer host c common).err = none ∧
        (ociWorkerInitializer host c common).workers = []) := by
  rw [ociWorkerInitializer_resolved host c common config hres]
  constructor
  · rintro (h | ⟨h, hf⟩)
    · exact activate_enabled_bypass host config h hnps hroot
    · have hb := activate_enabled_bypass host
        { config with OCI := { config.OCI with Enabled := some true } } rfl hnps hroot
      rw [activate_found host config h hf]
      refine ⟨hb.1, hb.2.1, fun e he => ?_⟩
      simp only [List.cons_append, List.nil_append, List.mem_cons] at he
      rcases he with he | he | he
      · subst he; rfl
      · subst he; rfl
      · exact hb.2.2 e he
  · rintro (h | ⟨h, hr, hb⟩)
    · rw [activate_disabled host config h]
      exact ⟨rfl, rfl⟩
    · rw [activate_missing host config h hr hb]
      exact ⟨rfl, rfl⟩

theorem bypass_without_rootless_is_error_witness :
    (ociWorkerInitializer sampleHost noFlags ⟨bypassConfig (some true)⟩).err ≠ none ∧
      (ociWorkerInitializer sampleHost noFlags ⟨bypassConfig (some true)⟩).workers = [] :=
  have h := (bypass_without_rootless_is_error sampleHost noFlags ⟨bypassConfig (some true)⟩
    (bypassConfig (some true)) (by decide) (by decide) (by decide)).1 (Or.inl (by decide))
  ⟨h.1, h.2.1⟩

/-- C2: when the enablement flag resolves to explicit false, `ociWorkerInitializer`
returns no worker and no error with an empty trace (no search-path lookup, no overlay
probe, no construction call), and does so whatever the two probes would answer. -/
theorem disabled_returns_nothing (host : Host) (c : Context) (common : workerInitializerOpt)
    (config : Config) (hres : applyOCIFlags host c common.config = (config, none))
    (hen : config.OCI.Enabled = some false) :
    ociWorkerInitializer host c common = ⟨[], [], none⟩ ∧
      ∀ (lp : String → Bool) (ov : String → Option String),
        ociWorkerInitializer { host with lookPath := lp, overlaySupported := ov } c common =
          ⟨[], [], none⟩ := by
  refine ⟨?_, fun lp ov => ?_⟩
  · rw [ociWorkerInitializer_resolved host c common config hres]
    exact activate_disabled host config hen
  · rw [ociWorkerInitializer_resolved _ c common config
      ((applyOCIFlags_lookPath host c common.config lp ov).trans hres)]
    exact activate_disabled _ config hen

theorem disabled_returns_nothing_witness :
    ociWorkerInitializer sampleHost (oneStringFlag "oci-worker" "false") ⟨autoConfig⟩ =
      ⟨[], [], none⟩ :=
  (disabled_returns_nothing sampleHost (oneStringFlag "oci-worker" "false") ⟨autoConfig⟩
    { autoConfig with OCI := { autoConfig.OCI with Enabled := some false } }
    (by decide) (by decide)).1

/-- C3: when the resolved enablement flag is unset, `ociWorkerInitializer` returns no
worker and no error if neither `runc` nor `buildkit-runc` is on the search path; if at
least one of them is (the fallback alone suffices), its workers and error are those of
the same resolved configuration with enablement explicitly true, and its trace is the two
lookups followed by that run's trace, which opens with driver resolution. -/
theorem unset_follows_executable_probe (host : Host) (c : Context)
    (common : workerInitializerOpt) (config : Config)
    (hres : applyOCIFlags host c common.config = (config, none))
    (hen : config.OCI.Enabled = none) :
    (host.lookPath "runc" = false → host.lookPath "buildkit-runc" = false →
      (ociWorkerInitializer host c common).workers = [] ∧
        (ociWorkerInitializer host c common).err = none) ∧
    (host.lookPath "runc" = true ∨ host.lookPath "buildkit-runc" = true →
      ∀ (c' : Context) (common' : workerInitializerOpt),
        applyOCIFlags host c' common'.config =
            ({ config with OCI := { config.OCI with Enabled := some true } }, none) →
          (ociWorkerInitializer host c common).workers =
              (ociWorkerInitializer host c' common').workers ∧
            (ociWorkerInitializer host c common).err =
              (ociWorkerInitializer host c' common').err ∧
            (ociWorkerInitializer host c common).trace =
              [.lookPath "runc", .lookPath "buildkit-runc"] ++
                (ociWorkerInitializer host c' common').trace ∧
            (snapshotterFactory host config.Root config.OCI.Snapshotter).1 <+:
              (ociWorkerInitializer host c' common').trace) := by
  rw [ociWorkerInitializer_resolved host c common config hres]
  constructor
  · intro hr hb
    rw [activate_missing host config hen hr hb]
    exact ⟨rfl, rfl⟩
  · intro hf c' common' hres'
    rw [ociWorkerInitializer_resolved host c' common' _ hres', activate_found host config hen hf]
    exact ⟨rfl, rfl, rfl,
      (activate_enabled_driver host
        { config with OCI := { config.OCI with Enabled := some true } } rfl).1⟩

theorem unset_follows_executable_probe_witness :
    ((ociWorkerInitializer bareHost noFlags ⟨autoConfig⟩).workers = [] ∧
        (ociWorkerInitializer bareHost noFlags ⟨autoConfig⟩).err = none) ∧
      ((ociWorkerInitializer sampleHost noFlags ⟨autoConfig⟩).workers =
          (ociWorkerInitializer sampleHost (oneStringFlag "oci-worker" "true")
            ⟨autoConfig⟩).workers ∧
        (ociWorkerInitializer sampleHost noFlags ⟨autoConfig⟩).err =
          (ociWorkerInitializer sampleHost (oneStringFlag "oci-worker" "true")
            ⟨autoConfig⟩).err) :=
  have h := (unset_follows_executable_probe sampleHost noFlags ⟨autoConfig⟩ autoConfig
    (by decide) (by decide)).2 (Or.inr (by decide)) (oneStringFlag "oci-worker" "true")
    ⟨autoConfig⟩ (by decide)
  ⟨(unset_follows_executable_probe bareHost noFlags ⟨autoConfig⟩ autoConfig
      (by decide) (by decide)).1 (by decide) (by decide), h.1, h.2.1⟩

/-- C4: when the resolved enablement flag is explicitly true, `ociWorkerInitializer` makes
no search-path lookup and goes to driver resolution (whose trace opens the run and whose
error, if any, is returned); its outcome is the same whatever the search path holds; and
it never returns the silent result of no worker and no error. -/
theorem enabled_skips_executable_probe (host : Host) (c : Context)
    (common : workerInitializerOpt) (config : Config)
    (hres : applyOCIFlags host c common.config = (config, none))
    (hen : config.OCI.Enabled = some true) :
    (∀ e ∈ (ociWorkerInitializer host c common).trace, e.isLookPath = false) ∧
      ((snapshotterFactory host config.Root config.OCI.Snapshotter).1 <+:
          (ociWorkerInitializer host c common).trace ∧
        ∀ e, (snapshotterFactory host config.Root config.OCI.Snapshotter).2.2 = some e →
          (ociWorkerInitializer host c common).err = some e) ∧
      (∀ lp : String → Bool,
        ociWorkerInitializer { host with lookPath := lp } c common =
          ociWorkerInitializer host c common) ∧
      ¬ ((ociWorkerInitializer host c common).workers = [] ∧
          (ociWorkerInitializer host c common).err = none) := by
  have hlp : ∀ lp : String → Bool,
      ociWorkerInitializer { host with lookPath := lp } c common =
        ociWorkerInitializer host c common := by
    intro lp
    rw [ociWorkerInitializer_resolved host c common config hres,
      ociWorkerInitializer_resolved { host with lookPath := lp } c common config hres]
    exact activate_explicit_host host config true hen lp
  rw [ociWorkerInitializer_resolved host c common config hres] at hlp ⊢
  refine ⟨activate_explicit_lookPath host config true hen,
    activate_enabled_driver host config hen, hlp, ?_⟩
  rintro ⟨hw, he⟩
  rcases activate_enabled_result host config hen with ⟨h1, _⟩ | ⟨_, w, h2⟩
  · exact h1 he
  · rw [hw] at h2
    cases h2

theorem enabled_skips_executable_probe_witness :
    ociWorkerInitializer { bareHost with lookPath := fun _ => true }
        (oneStringFlag "oci-worker" "true") ⟨autoConfig⟩ =
      ociWorkerInitializer bareHost (oneStringFlag "oci-worker" "true") ⟨autoConfig⟩ :=
  (enabled_skips_executable_probe bareHost (oneStringFlag "oci-worker" "true") ⟨autoConfig⟩
    { autoConfig with OCI := { autoConfig.OCI with Enabled := some true } }
    (by decide) (by decide)).2.2.1 (fun _ => true)

/-- C5: on the sentinel `auto`, `snapshotterFactory` returns no error at any root; the
driver is `overlayfs` when the overlay probe at that root succeeds and `native` when it
fails, whatever the failure. -/
theorem auto_driver_follows_overlay_probe (host : Host) (root : String) :
    (snapshotterFactory host root "auto").2.2 = none ∧
      (host.overlaySupported root = none →
        (snapshotterFactory host root "auto").2.1 = ⟨"overlayfs", some .overlay⟩) ∧
      (∀ reason, host.overlaySupported root = some reason →
        (snapshotterFactory host root "auto").2.1 = ⟨"native", some .native⟩) := by
  unfold snapshotterFactory
  cases ho : host.overlaySupported root <;> simp

theorem auto_driver_follows_overlay_probe_witness :
    (snapshotterFactory sampleHost "/var/lib/buildkit" "auto").2.1 =
        ⟨"overlayfs", some .overlay⟩ ∧
      (snapshotterFactory { sampleHost with overlaySupported := fun _ => some "denied" }
        "/var/lib/buildkit" "auto").2.1 = ⟨"native", some .native⟩ :=
  ⟨(auto_driver_follows_overlay_probe sampleHost "/var/lib/buildkit").2.1 (by decide),
    (auto_driver_follows_overlay_probe { sampleHost with overlaySupported := fun _ => some "denied" }
      "/var/lib/buildkit").2.2 "denied" (by decide)⟩

/-- C6, refuted as stated: for the unknown driver name `a"b` the error message holds the
name in escaped form only, not the name itself. -/
theorem unknown_driver_message_escapes_name :
    (snapshotterFactory sampleHost "/var/lib/buildkit" "a\"b").2.2 =
        some "unknown snapshotter name: \"a\\\"b\"" ∧
      ¬ contains "unknown snapshotter name: \"a\\\"b\"" "a\"b" := by
  decide

/-- C6, as amended: for every driver name other than `auto`, `snapshotterFactory` succeeds
exactly when the name is `native` or `overlayfs`; the factory it returns carries the given
name and the overlay probe is not consulted (the trace is empty); for every other name the
error is `unknown snapshotter name: ` followed by the name as the `%q` verb quotes it,
which holds the name itself whenever every rune of the name is printable and is neither
the double quote nor the backslash. -/
theorem explicit_driver_is_validated (host : Host) (root name : String)
    (hname : name ≠ "auto") :
    ((snapshotterFactory host root name).2.2 = none ↔ (name = "native" ∨ name = "overlayfs")) ∧
      (snapshotterFactory host root name).2.1.Name = name ∧
      (snapshotterFactory host root name).1 = [] ∧
      (name ≠ "native" → name ≠ "overlayfs" →
        (snapshotterFactory host root name).2.2 =
            some ("unknown snapshotter name: " ++ quote host name) ∧
          ((∀ r ∈ name.data, copiedVerbatim host r) →
            contains ("unknown snapshotter name: " ++ quote host name) name)) := by
  unfold snapshotterFactory
  simp only [if_neg hname]
  by_cases h1 : name = "native"
  · subst h1
    simp
  · by_cases h2 : name = "overlayfs"
    · subst h2
      simp
    · simp only [if_neg h1, if_neg h2]
      refine ⟨by simp [h1, h2], trivial, trivial, fun _ _ => ⟨trivial, fun hv => ?_⟩⟩
      unfold contains
      rw [quote_verbatim host name hv, String.data_append]
      exact ⟨"unknown snapshotter name: ".data ++ ['"'], ['"'], by simp⟩

theorem explicit_driver_is_validated_witness :
    (snapshotterFactory sampleHost "/var/lib/buildkit" "zfs").2.2 =
        some ("unknown snapshotter name: " ++ quote sampleHost "zfs") ∧
      contains ("unknown snapshotter name: " ++ quote sampleHost "zfs") "zfs" :=
  have h := (explicit_driver_is_validated sampleHost "/var/lib/buildkit" "zfs"
    (by decide)).2.2.2 (by decide) (by decide)
  ⟨h.1, h.2 (by decide)⟩

/-- C7, refuted as stated: with no override at all, the zero base configuration comes back
with the driver name `auto` in place of the empty name and an empty label map in place of
the nil one. -/
theorem no_override_rewrites_zero_config :
    (applyOCIFlags sampleHost noFlags zeroConfig).2 = none ∧
      (applyOCIFlags sampleHost noFlags zeroConfig).1 ≠ zeroConfig ∧
      zeroConfig.OCI.Snapshotter = "" ∧
      (applyOCIFlags sampleHost noFlags zeroConfig).1.OCI.Snapshotter = "auto" ∧
      zeroConfig.OCI.Labels = none ∧
      (applyOCIFlags sampleHost noFlags zeroConfig).1.OCI.Labels = some StrMap.empty := by
  decide

/-- C7, as amended: with an empty override set (no flag set, no labels, no platforms,
global rootless false) and a label parser that maps no strings to the empty map,
`applyOCIFlags` returns no error and leaves the base configuration as it was, except that
an empty driver name becomes `auto` and a nil label map becomes an empty one; so the
configuration is unchanged when its driver name is non-empty and its label map non-nil. -/
theorem no_override_identity (host : Host) (c : Context) (B : Config)
    (hset : ∀ name, c.GlobalIsSet name = false)
    (hlabels : c.GlobalStringSlice "oci-worker-labels" = [])
    (hplatforms : c.GlobalStringSlice "oci-worker-platform" = [])
    (hrootless : c.GlobalBool "rootless" = false)
    (hattr : host.attrMap [] = .ok StrMap.empty) :
    applyOCIFlags host c B =
        ({ B with OCI := { B.OCI with
            Snapshotter := if B.OCI.Snapshotter = "" then "auto" else B.OCI.Snapshotter
            Labels := some (B.OCI.Labels.getD StrMap.empty) } }, none) ∧
      (B.OCI.Snapshotter ≠ "" → B.OCI.Labels ≠ none → applyOCIFlags host c B = (B, none)) := by
  have key : applyOCIFlags host c B =
      ({ B with OCI := { B.OCI with
          Snapshotter := if B.OCI.Snapshotter = "" then "auto" else B.OCI.Snapshotter
          Labels := some (B.OCI.Labels.getD StrMap.empty) } }, none) := by
    rw [applyOCIFlags_eq]
    simp [resolveEnabled, hset, hlabels, hattr, mergedConfig, hplatforms, hrootless,
      mergeLabels_empty]
  refine ⟨key, fun hs hl => ?_⟩
  rw [key]
  obtain ⟨root, reg, ⟨en, lbl, plat, sn, rl, nps, gc⟩⟩ := B
  cases lbl with
  | none => exact absurd rfl hl
  | some m =>
    simp only at hs
    simp [hs]

theorem no_override_identity_witness :
    applyOCIFlags sampleHost noFlags autoConfig = (autoConfig, none) :=
  (no_override_identity sampleHost noFlags autoConfig (fun _ => rfl) rfl rfl rfl rfl).2
    (by decide) (by decide)

/-- C8: after a successful `applyOCIFlags` whose label strings parsed to the map `L`, the
label map holds every key/value pair of `L`, every key outside `L` reads as it did in the
base map, and every key present comes from `L` or from the base map. -/
theorem labels_merge_is_additive_union (host : Host) (c : Context) (B cfg' : Config)
    (L : StrMap) (hL : host.attrMap (c.GlobalStringSlice "oci-worker-labels") = .ok L)
    (hres : applyOCIFlags host c B = (cfg', none)) :
    (∀ k v, L.get k = some v → labelOf cfg'.OCI.Labels k = some v) ∧
      (∀ k, L.get k = none → labelOf cfg'.OCI.Labels k = labelOf B.OCI.Labels k) ∧
      (∀ k, (labelOf cfg'.OCI.Labels k).isSome = true →
        (L.get k).isSome = true ∨ (labelOf B.OCI.Labels k).isSome = true) := by
  obtain ⟨en, L', _, hL', rfl⟩ := applyOCIFlags_success host c B cfg' hres
  rw [hL] at hL'
  cases hL'
  have hget : ∀ k, labelOf (mergedConfig c B L en).OCI.Labels k =
      match L.get k with
      | some v => some v
      | none => labelOf B.OCI.Labels k := by
    intro k
    simp only [mergedConfig, labelOf, get_mergeLabels]
    cases B.OCI.Labels <;> rfl
  refine ⟨fun k v hk => ?_, fun k hk => ?_, fun k hk => ?_⟩
  · rw [hget, hk]
  · rw [hget, hk]
  · rw [hget] at hk
    cases hk' : L.get k with
    | some v => exact Or.inl rfl
    | none =>
      rw [hk'] at hk
      exact Or.inr hk

theorem labels_merge_is_additive_union_witness :
    labelOf (applyOCIFlags sampleHost (labelFlags ["tier=gold", "org=example"])
        autoConfig).1.OCI.Labels "tier" = some "gold" ∧
      labelOf (applyOCIFlags sampleHost (labelFlags ["tier=gold"]) autoConfig).1.OCI.Labels
        "org" = labelOf autoConfig.OCI.Labels "org" :=
  ⟨(labels_merge_is_additive_union sampleHost (labelFlags ["tier=gold", "org=example"])
      autoConfig (applyOCIFlags sampleHost (labelFlags ["tier=gold", "org=example"]) autoConfig).1
      ((StrMap.empty.set "tier" "gold").set "org" "example") rfl (by decide)).1
      "tier" "gold" (by decide),
    (labels_merge_is_additive_union sampleHost (labelFlags ["tier=gold"])
      autoConfig (applyOCIFlags sampleHost (labelFlags ["tier=gold"]) autoConfig).1
      (StrMap.empty.set "tier" "gold") rfl (by decide)).2.1 "org" (by decide)⟩

/-- C9, refuted as stated: the 64-bit override of 9223372036855 megabytes resolves to a
negative storage cap, not to 9223372036855 * 1000000. -/
theorem keepstorage_conversion_overflows :
    isInt64 9223372036855 ∧
      (applyOCIFlags sampleHost (keepStorageFlag 9223372036855) autoConfig).2 = none ∧
      (applyOCIFlags sampleHost (keepStorageFlag 9223372036855)
        autoConfig).1.OCI.GCConfig.GCKeepStorage = -9223372036854551616 ∧
      (applyOCIFlags sampleHost (keepStorageFlag 9223372036855)
        autoConfig).1.OCI.GCConfig.GCKeepStorage ≠ 9223372036855 * 1000000 := by
  decide

/-- C9, as amended: when the storage-cap override is supplied as `N` megabytes, a
successful `applyOCIFlags` leaves `GCKeepStorage` equal to `N * 1000000` reduced to 64
bits, one multiplication; for a 64-bit `N` that is `N * 1000000` exactly if and only if
`N` lies between -9223372036854 and 9223372036854. -/
theorem keepstorage_conversion (host : Host) (c : Context) (B cfg' : Config)
    (hres : applyOCIFlags host c B = (cfg', none))
    (hset : c.GlobalIsSet "oci-worker-gc-keepstorage" = true) :
    cfg'.OCI.GCConfig.GCKeepStorage =
        wrapInt64 (c.GlobalInt64 "oci-worker-gc-keepstorage" * 1000000) ∧
      (isInt64 (c.GlobalInt64 "oci-worker-gc-keepstorage") →
        (cfg'.OCI.GCConfig.GCKeepStorage = c.GlobalInt64 "oci-worker-gc-keepstorage" * 1000000 ↔
          -9223372036854 ≤ c.GlobalInt64 "oci-worker-gc-keepstorage" ∧
            c.GlobalInt64 "oci-worker-gc-keepstorage" ≤ 9223372036854)) := by
  obtain ⟨en, L, _, _, rfl⟩ := applyOCIFlags_success host c B cfg' hres
  simp only [mergedConfig, hset, if_true, true_and]
  generalize c.GlobalInt64 "oci-worker-gc-keepstorage" = N
  unfold wrapInt64 isInt64
  intro hN
  constructor
  · intro h
    omega
  · intro h
    omega

theorem keepstorage_conversion_witness :
    (applyOCIFlags sampleHost (keepStorageFlag 512) autoConfig).1.OCI.GCConfig.GCKeepStorage =
      512 * 1000000 :=
  ((keepstorage_conversion sampleHost (keepStorageFlag 512) autoConfig
    (applyOCIFlags sampleHost (keepStorageFlag 512) autoConfig).1 (by decide) (by decide)).2
    (by decide)).2 (by decide)

/-- C10, refuted as stated: a label batch that fails to parse leaves the zero base
configuration with the driver name `auto`, and leaves a supplied `--oci-worker=true`
written to the enablement flag. -/
theorem failed_label_parse_leaves_mutations :
    applyOCIFlags sampleHost (labelFlags ["broken"]) zeroConfig =
        ({ zeroConfig with OCI := { zeroConfig.OCI with Snapshotter := "auto" } },
          some "invalid value broken") ∧
      (applyOCIFlags sampleHost (labelFlags ["broken"]) zeroConfig).1 ≠ zeroConfig ∧
      applyOCIFlags sampleHost (enableWithLabels ["broken"]) autoConfig =
        ({ autoConfig with OCI := { autoConfig.OCI with Enabled := some true } },
          some "invalid value broken") ∧
      (applyOCIFlags sampleHost (enableWithLabels ["broken"]) autoConfig).1 ≠ autoConfig := by
  decide

/-- C10, as amended: when the label strings fail to parse and the `oci-worker` override is
absent or parses, `applyOCIFlags` returns the label parse error and applies no label of
the batch: the configuration after the call is the one before it, except that an empty
driver name has become `auto` and a supplied `oci-worker` override has been written to the
enablement flag; it is the configuration before the call when the driver name is
non-empty and no `oci-worker` override is supplied. -/
theorem failed_label_parse_applies_no_label (host : Host) (c : Context) (B : Config)
    (e : String) (hfail : host.attrMap (c.GlobalStringSlice "oci-worker-labels") = .error e) :
    (c.GlobalIsSet "oci-worker" = false →
      applyOCIFlags host c B =
        ({ B with OCI := { B.OCI with
            Snapshotter := if B.OCI.Snapshotter = "" then "auto" else B.OCI.Snapshotter } },
          some e)) ∧
    (∀ en, c.GlobalIsSet "oci-worker" = true →
      host.parseBoolOrAuto (c.GlobalString "oci-worker") = .ok en →
      applyOCIFlags host c B =
        ({ B with OCI := { B.OCI with
            Snapshotter := if B.OCI.Snapshotter = "" then "auto" else B.OCI.Snapshotter
            Enabled := en } },
          some e)) ∧
    (c.GlobalIsSet "oci-worker" = false → B.OCI.Snapshotter ≠ "" →
      applyOCIFlags host c B = (B, some e)) := by
  have hd : defaultSnapshotter B =
      { B with OCI := { B.OCI with
        Snapshotter := if B.OCI.Snapshotter = "" then "auto" else B.OCI.Snapshotter } } := by
    unfold defaultSnapshotter
    by_cases hs : B.OCI.Snapshotter = "" <;> simp [hs]
  rw [applyOCIFlags_eq, hfail, hd]
  refine ⟨fun h0 => ?_, fun en h0 hp => ?_, fun h0 hs => ?_⟩
  · simp [resolveEnabled, h0]
  · simp [resolveEnabled, h0, hp]
  · simp [resolveEnabled, h0, hs]

theorem failed_label_parse_applies_no_label_witness :
    applyOCIFlags sampleHost (labelFlags ["broken"]) autoConfig =
      (autoConfig, some "invalid value broken") :=
  (failed_label_parse_applies_no_label sampleHost (labelFlags ["broken"]) autoConfig
    "invalid value broken" rfl).2.2 (by decide) (by decide)

/-- C11, refuted as stated: with no snapshotter override the empty base name comes back as
`auto`, not as the base value; and supplying only the snapshotter override turns a nil
base label map into an empty one. -/
theorem merge_rewrites_empty_driver_and_nil_labels :
    (applyOCIFlags sampleHost (oneStringFlag "oci-worker" "true") zeroConfig).2 = none ∧
      (oneStringFlag "oci-worker" "true").GlobalIsSet "oci-worker-snapshotter" = false ∧
      (applyOCIFlags sampleHost (oneStringFlag "oci-worker" "true")
        zeroConfig).1.OCI.Snapshotter ≠ zeroConfig.OCI.Snapshotter ∧
      (applyOCIFlags sampleHost (oneStringFlag "oci-worker-snapshotter" "native")
        zeroConfig).2 = none ∧
      (applyOCIFlags sampleHost (oneStringFlag "oci-worker-snapshotter" "native")
        zeroConfig).1.OCI.Labels ≠ zeroConfig.OCI.Labels := by
  decide

/-- C11, as amended: after a successful `applyOCIFlags`, each of enablement, sandbox
bypass, GC enablement and platforms is the supplied override when one is present (for
platforms, a non-empty list) and the base value otherwise, and the snapshotter name is the
supplied override when one is present and otherwise the base name, an empty base name
being replaced by `auto`, whatever the other overrides; when only the snapshotter override
is supplied, platforms, GC enablement, GC policy rules and the storage cap keep their base
values and the label map keeps its entries, a nil map being replaced by an empty one. -/
theorem overrides_merge_field_by_field (host : Host) (c : Context) (B cfg' : Config)
    (hres : applyOCIFlags host c B = (cfg', none)) :
    ((c.GlobalIsSet "oci-worker" = true →
        host.parseBoolOrAuto (c.GlobalString "oci-worker") = .ok cfg'.OCI.Enabled) ∧
      (c.GlobalIsSet "oci-worker" = false → cfg'.OCI.Enabled = B.OCI.Enabled)) ∧
    cfg'.OCI.Snapshotter =
      (if c.GlobalIsSet "oci-worker-snapshotter" then c.GlobalString "oci-worker-snapshotter"
       else if B.OCI.Snapshotter = "" then "auto" else B.OCI.Snapshotter) ∧
    cfg'.OCI.NoProcessSandbox =
      (if c.GlobalIsSet "oci-worker-no-process-sandbox" then
        c.GlobalBool "oci-worker-no-process-sandbox"
       else B.OCI.NoProcessSandbox) ∧
    cfg'.OCI.GCConfig.GC =
      (if c.GlobalIsSet "oci-worker-gc" then some (c.GlobalBool "oci-worker-gc")
       else B.OCI.GCConfig.GC) ∧
    cfg'.OCI.Platforms =
      (if c.GlobalStringSlice "oci-worker-platform" ≠ [] then
        c.GlobalStringSlice "oci-worker-platform"
       else B.OCI.Platforms) ∧
    ((∀ name, name ≠ "oci-worker-snapshotter" → c.GlobalIsSet name = false) →
      (∀ name, c.GlobalStringSlice name = []) →
      host.attrMap [] = .ok StrMap.empty →
      cfg'.OCI.Labels = some (B.OCI.Labels.getD StrMap.empty) ∧
        (∀ k, labelOf cfg'.OCI.Labels k = labelOf B.OCI.Labels k) ∧
        cfg'.OCI.Platforms = B.OCI.Platforms ∧
        cfg'.OCI.GCConfig.GC = B.OCI.GCConfig.GC ∧
        cfg'.OCI.GCConfig.GCPolicy = B.OCI.GCConfig.GCPolicy ∧
        cfg'.OCI.GCConfig.GCKeepStorage = B.OCI.GCConfig.GCKeepStorage) := by
  obtain ⟨en, L, hen, hL, rfl⟩ := applyOCIFlags_success host c B cfg' hres
  refine ⟨⟨fun h => ?_, fun h => ?_⟩, rfl, rfl, rfl, ?_, fun hset hslice hattr => ?_⟩
  · simpa [resolveEnabled, h, mergedConfig] using hen
  · simp only [resolveEnabled, h, Bool.false_eq_true, if_false, Except.ok.injEq] at hen
    simp [mergedConfig, hen]
  · simp only [mergedConfig]
    by_cases hp : c.GlobalStringSlice "oci-worker-platform" = [] <;> simp [hp]
  · rw [hslice "oci-worker-labels", hattr] at hL
    cases hL
    have hlabels : (mergedConfig c B StrMap.empty en).OCI.Labels =
        some (B.OCI.Labels.getD StrMap.empty) := rfl
    refine ⟨hlabels, fun k => ?_, ?_, ?_, rfl, ?_⟩
    · rw [hlabels]
      cases B.OCI.Labels <;> rfl
    · simp [mergedConfig, hslice "oci-worker-platform"]
    · simp [mergedConfig, hset "oci-worker-gc" (by decide)]
    · simp [mergedConfig, hset "oci-worker-gc-keepstorage" (by decide)]

theorem overrides_merge_field_by_field_witness :
    (applyOCIFlags sampleHost (oneStringFlag "oci-worker-snapshotter" "native")
        autoConfig).1.OCI.Snapshotter = "native" ∧
      (applyOCIFlags sampleHost (oneStringFlag "oci-worker-snapshotter" "native")
        autoConfig).1.OCI.Labels = some (autoConfig.OCI.Labels.getD StrMap.empty) :=
  have h := overrides_merge_field_by_field sampleHost
    (oneStringFlag "oci-worker-snapshotter" "native") autoConfig
    (applyOCIFlags sampleHost (oneStringFlag "oci-worker-snapshotter" "native") autoConfig).1
    (by decide)
  ⟨h.2.1, (h.2.2.2.2.2 (fun name hn => by
      show decide (name = "oci-worker-snapshotter") = false
      exact decide_eq_false hn) (fun _ => rfl) rfl).1⟩

/-- C12: when the base snapshotter name is empty and no snapshotter override is supplied,
the snapshotter field that `applyOCIFlags` leaves is `auto`, on its error returns as well
as on success, so that driver resolution on that field never fails on the name. -/
theorem empty_driver_defaults_to_auto (host : Host) (c : Context) (B : Config)
    (hempty : B.OCI.Snapshotter = "")
    (hunset : c.GlobalIsSet "oci-worker-snapshotter" = false) :
    (applyOCIFlags host c B).1.OCI.Snapshotter = "auto" ∧
      ∀ root, (snapshotterFactory host root (applyOCIFlags host c B).1.OCI.Snapshotter).2.2 =
        none := by
  have key : (applyOCIFlags host c B).1.OCI.Snapshotter = "auto" := by
    rw [applyOCIFlags_eq]
    cases resolveEnabled host c B with
    | error e => simp [defaultSnapshotter, hempty]
    | ok en =>
      cases host.attrMap (c.GlobalStringSlice "oci-worker-labels") with
      | error e => simp [defaultSnapshotter, hempty]
      | ok L => simp [mergedConfig, hempty, hunset]
  refine ⟨key, fun root => ?_⟩
  rw [key]
  exact snapshotterFactory_auto host root

theorem empty_driver_defaults_to_auto_witness :
    (applyOCIFlags sampleHost (labelFlags ["tier=gold"]) zeroConfig).1.OCI.Snapshotter =
      "auto" :=
  (empty_driver_defaults_to_auto sampleHost (labelFlags ["tier=gold"]) zeroConfig
    (by decide) (by decide)).1

/-- C13: `ociWorkerInitializer` returns an error with no worker, or no error with no
worker, or no error with exactly one worker; and it returns the worker `w` exactly when
flag resolution succeeds, the backend activates, driver resolution succeeds, the
sandbox/rootless check passes, `runc.NewWorkerOpt` succeeds, the platforms (when any are
configured) parse, and `base.NewWorker` on the assembled options returns `w`. -/
theorem returns_zero_or_one_worker (host : Host) (c : Context)
    (common : workerInitializerOpt) :
    (((ociWorkerInitializer host c common).err ≠ none ∧
          (ociWorkerInitializer host c common).workers = []) ∨
        ((ociWorkerInitializer host c common).err = none ∧
          (ociWorkerInitializer host c common).workers = []) ∨
        ((ociWorkerInitializer host c common).err = none ∧
          ∃ w, (ociWorkerInitializer host c common).workers = [w])) ∧
      ∀ w, ((ociWorkerInitializer host c common).workers = [w] ↔
        ∃ config opt platforms,
          applyOCIFlags host c common.config = (config, none) ∧
            activates host config ∧
            (snapshotterFactory host config.Root config.OCI.Snapshotter).2.2 = none ∧
            ¬ (config.OCI.NoProcessSandbox = true ∧ config.OCI.Rootless = false) ∧
            host.newWorkerOpt config.Root
                (snapshotterFactory host config.Root config.OCI.Snapshotter).2.1
                config.OCI.Rootless (processModeOf config) config.OCI.Labels = .ok opt ∧
            platformsResolve host config opt platforms ∧
            host.newWorker (assembleOpt host config opt platforms) = .ok w) := by
  rcases hres : applyOCIFlags host c common.config with ⟨config, err⟩
  cases err with
  | some e =>
    have hout : ociWorkerInitializer host c common = ⟨[], [], some e⟩ := by
      unfold ociWorkerInitializer
      rw [hres]
    rw [hout]
    refine ⟨Or.inl ⟨by simp, rfl⟩, fun w => ⟨fun h => (by cases h), ?_⟩⟩
    rintro ⟨config', _, _, h, _⟩
    cases h
  | none =>
    rw [ociWorkerInitializer_resolved host c common config hres]
    by_cases ha : activates host config
    · rw [activate_activating host config ha]
      constructor
      · rcases afterGate_result host config with h | h
        · exact Or.inl h
        · exact Or.inr (Or.inr h)
      · intro w
        simp only [afterGate_one_worker]
        constructor
        · rintro ⟨hs, hb, opt, platforms, h1, h2, h3⟩
          exact ⟨config, opt, platforms, rfl, ha, hs, hb, h1, h2, h3⟩
        · rintro ⟨config', opt, platforms, h0, _, hs, hb, h1, h2, h3⟩
          cases h0
          exact ⟨hs, hb, opt, platforms, h1, h2, h3⟩
    · have hnone : (activate host config).err = none ∧ (activate host config).workers = [] := by
        rcases activate_not_activating host config ha with h | h <;> rw [h] <;> exact ⟨rfl, rfl⟩
      refine ⟨Or.inr (Or.inl hnone), fun w => ⟨fun h => ?_, ?_⟩⟩
      · rw [hnone.2] at h
        cases h
      · rintro ⟨config', _, _, h0, ha', _⟩
        cases h0
        exact absurd ha' ha

theorem returns_zero_or_one_worker_witness :
    (ociWorkerInitializer sampleHost noFlags ⟨autoConfig⟩).workers =
      [⟨"/var/lib/buildkit/overlayfs"⟩] :=
  ((returns_zero_or_one_worker sampleHost noFlags ⟨autoConfig⟩).2
    ⟨"/var/lib/buildkit/overlayfs"⟩).mpr
    ⟨autoConfig, ⟨"/var/lib/buildkit/overlayfs", [], "", ["linux/amd64"]⟩, ["linux/amd64"],
      by decide, by decide, by decide, by decide, rfl, by simp [platformsResolve, autoConfig],
      rfl⟩

/-- C14, refuted as stated: with the unknown driver name `zfs`, `ociWorkerInitializer`
returns no error when enablement is explicitly false, and none when enablement is unset
and neither binary is on the search path. -/
theorem unknown_driver_passes_when_not_activating :
    applyOCIFlags sampleHost noFlags (zfsConfig (some false)) =
        (zfsConfig (some false), none) ∧
      (zfsConfig (some false)).OCI.Snapshotter = "zfs" ∧
      (ociWorkerInitializer sampleHost noFlags ⟨zfsConfig (some false)⟩).err = none ∧
      applyOCIFlags bareHost noFlags (zfsConfig none) = (zfsConfig none, none) ∧
      (ociWorkerInitializer bareHost noFlags ⟨zfsConfig none⟩).err = none := by
  decide

/-- C14, as amended: when the resolved snapshotter name is none of `auto`, `native` and
`overlayfs` and the backend is activating (enablement explicitly true, or unset with
`runc` or `buildkit-runc` on the search path), `ociWorkerInitializer` returns the error
`unknown snapshotter name: ` followed by the quoted name, no worker, and makes no
construction call, whatever the other fields and the overlay probe; when the backend is
not activating it returns no worker and no error. -/
theorem unknown_driver_is_fatal_when_activating (host : Host) (c : Context)
    (common : workerInitializerOpt) (config : Config)
    (hres : applyOCIFlags host c common.config = (config, none))
    (hauto : config.OCI.Snapshotter ≠ "auto") (hnative : config.OCI.Snapshotter ≠ "native")
    (hoverlay : config.OCI.Snapshotter ≠ "overlayfs") :
    (activates host config →
      (ociWorkerInitializer host c common).err =
          some ("unknown snapshotter name: " ++ quote host config.OCI.Snapshotter) ∧
        (ociWorkerInitializer host c common).workers = [] ∧
        ∀ e ∈ (ociWorkerInitializer host c common).trace, e.isConstruction = false) ∧
    (¬ activates host config →
      (ociWorkerInitializer host c common).err = none ∧
        (ociWorkerInitializer host c common).workers = []) := by
  rw [ociWorkerInitializer_resolved host c common config hres]
  have hsn := snapshotterFactory_unknown host config.Root config.OCI.Snapshotter hauto hnative
    hoverlay
  constructor
  · intro ha
    rw [activate_activating host config ha]
    have hafter : afterGate host config =
        ⟨[], [], some ("unknown snapshotter name: " ++ quote host config.OCI.Snapshotter)⟩ := by
      simp [afterGate, hsn]
    rw [hafter]
    refine ⟨rfl, rfl, fun e he => ?_⟩
    simp only [List.append_nil] at he
    have := mem_gateLookups config e he
    cases e <;> simp [Event.isLookPath, Event.isConstruction] at this ⊢
  · intro ha
    rcases activate_not_activating host config ha with h | h <;> rw [h] <;> exact ⟨rfl, rfl⟩

theorem unknown_driver_is_fatal_when_activating_witness :
    (ociWorkerInitializer sampleHost noFlags ⟨zfsConfig none⟩).err =
        some ("unknown snapshotter name: " ++ quote sampleHost "zfs") ∧
      (ociWorkerInitializer sampleHost noFlags ⟨zfsConfig none⟩).workers = [] :=
  have h := (unknown_driver_is_fatal_when_activating sampleHost noFlags ⟨zfsConfig none⟩
    (zfsConfig none) (by decide) (by decide) (by decide) (by decide)).1 (by decide)
  ⟨h.1, h.2.1⟩

/-- C15: on every run of `ociWorkerInitializer`, a call of `runc.NewWorkerOpt` with process
mode `NoProcessSandbox` has the rootless argument true; every such call carries the
resolved rootless flag; when the resolved configuration has `NoProcessSandbox` true and
`Rootless` false neither `runc.NewWorkerOpt` nor `base.NewWorker` is called; and when
`NoProcessSandbox` is false the mode passed is `ProcessSandbox`. -/
theorem construction_never_bypasses_without_rootless (host : Host) (c : Context)
    (common : workerInitializerOpt) :
    (∀ root sn rl pm labels,
      Event.newWorkerOpt root sn rl pm labels ∈ (ociWorkerInitializer host c common).trace →
        pm = .NoProcessSandbox → rl = true) ∧
    (∀ config, applyOCIFlags host c common.config = (config, none) →
      (∀ root sn rl pm labels,
        Event.newWorkerOpt root sn rl pm labels ∈ (ociWorkerInitializer host c common).trace →
          rl = config.OCI.Rootless) ∧
      (config.OCI.NoProcessSandbox = true → config.OCI.Rootless = false →
        ∀ e ∈ (ociWorkerInitializer host c common).trace, e.isConstruction = false) ∧
      (config.OCI.NoProcessSandbox = false →
        ∀ root sn rl pm labels,
          Event.newWorkerOpt root sn rl pm labels ∈
              (ociWorkerInitializer host c common).trace →
            pm = .ProcessSandbox)) := by
  rcases hres : applyOCIFlags host c common.config with ⟨config, err⟩
  cases err with
  | some e =>
    have hout : ociWorkerInitializer host c common = ⟨[], [], some e⟩ := by
      unfold ociWorkerInitializer
      rw [hres]
    rw [hout]
    refine ⟨fun _ _ _ _ _ h => (by cases h), fun config' h => (by cases h)⟩
  | none =>
    rw [ociWorkerInitializer_resolved host c common config hres]
    have key := activate_construction host config
    constructor
    · intro root sn rl pm labels hmem hpm
      obtain ⟨hb, hargs⟩ := key _ hmem rfl
      obtain ⟨hrl, hmode⟩ := hargs root sn rl pm labels rfl
      rw [hrl]
      rw [hpm] at hmode
      cases hn : config.OCI.NoProcessSandbox
      · simp [processModeOf, hn] at hmode
      · cases hr : config.OCI.Rootless
        · exact absurd ⟨hn, hr⟩ hb
        · rfl
    · intro config' h
      cases h
      refine ⟨fun root sn rl pm labels hmem => ?_, fun hn hr e he => ?_,
        fun hn root sn rl pm labels hmem => ?_⟩
      · exact ((key _ hmem rfl).2 root sn rl pm labels rfl).1
      · cases hc : e.isConstruction
        · rfl
        · exact absurd ⟨hn, hr⟩ (key e he hc).1
      · rw [((key _ hmem rfl).2 root sn rl pm labels rfl).2]
        simp [processModeOf, hn]

theorem construction_never_bypasses_without_rootless_witness :
    Event.newWorkerOpt "/var/lib/buildkit" ⟨"overlayfs", some .overlay⟩ true
        .NoProcessSandbox (some (StrMap.empty.set "org" "acme")) ∈
      (ociWorkerInitializer sampleHost noFlags ⟨rootlessConfig true⟩).trace ∧
    (∀ e ∈ (ociWorkerInitializer sampleHost noFlags ⟨bypassConfig (some true)⟩).trace,
      e.isConstruction = false) :=
  ⟨by decide,
    ((construction_never_bypasses_without_rootless sampleHost noFlags
      ⟨bypassConfig (some true)⟩).2 (bypassConfig (some true)) (by decide)).2.1
      (by decide) (by decide)⟩

/-- C16, refuted as stated: with sandbox bypass enabled in the resolved configuration, no
bypass warning is emitted when enablement is explicitly false, nor when the backend
activates and driver resolution fails on the unknown name `zfs`. -/
theorem bypass_warning_not_always_emitted :
    applyOCIFlags sampleHost noFlags (bypassConfig (some false)) =
        (bypassConfig (some false), none) ∧
      (bypassConfig (some false)).OCI.NoProcessSandbox = true ∧
      Event.warn noProcessSandboxWarning ∉
        (ociWorkerInitializer sampleHost noFlags ⟨bypassConfig (some false)⟩).trace ∧
      (applyOCIFlags sampleHost (oneStringFlag "oci-worker-snapshotter" "zfs")
        (bypassConfig (some true))).2 = none ∧
      (applyOCIFlags sampleHost (oneStringFlag "oci-worker-snapshotter" "zfs")
        (bypassConfig (some true))).1.OCI.NoProcessSandbox = true ∧
      Event.warn noProcessSandboxWarning ∉
        (ociWorkerInitializer sampleHost (oneStringFlag "oci-worker-snapshotter" "zfs")
          ⟨bypassConfig (some true)⟩).trace := by
  decide

/-- C16, as amended: when sandbox bypass is enabled in the resolved configuration, the
backend is activating and driver resolution succeeds, the bypass warning is emitted,
whether or not rootless is enabled; on the path where rootless is not enabled the warning
is the last event of the run, which then returns the error of the sandbox/rootless check;
when the backend is not activating or driver resolution fails, no bypass warning is
emitted. -/
theorem bypass_warning_precedes_check (host : Host) (c : Context)
    (common : workerInitializerOpt) (config : Config)
    (hres : applyOCIFlags host c common.config = (config, none))
    (hnps : config.OCI.NoProcessSandbox = true) :
    (activates host config →
      (snapshotterFactory host config.Root config.OCI.Snapshotter).2.2 = none →
      Event.warn noProcessSandboxWarning ∈ (ociWorkerInitializer host c common).trace ∧
        (config.OCI.Rootless = false →
          (ociWorkerInitializer host c common).trace.getLast? =
              some (.warn noProcessSandboxWarning) ∧
            (ociWorkerInitializer host c common).err =
              some "can't enable NoProcessSandbox without Rootless")) ∧
    (¬ activates host config ∨
        (snapshotterFactory host config.Root config.OCI.Snapshotter).2.2 ≠ none →
      Event.warn noProcessSandboxWarning ∉ (ociWorkerInitializer host c common).trace) := by
  rw [ociWorkerInitializer_resolved host c common config hres]
  have hw := afterGate_warning host config
  have hgate : Event.warn noProcessSandboxWarning ∉ gateLookups config := by
    intro h
    have := mem_gateLookups config _ h
    cases this
  constructor
  · intro ha hs
    rw [activate_activating host config ha]
    obtain ⟨hmem, hlast⟩ := hw.1 hs hnps
    refine ⟨List.mem_append_right _ hmem, fun hr => ?_⟩
    obtain ⟨hl, he⟩ := hlast hr
    refine ⟨?_, he⟩
    simp only
    rw [List.getLast?_append, hl]
    rfl
  · intro h
    by_cases ha : activates host config
    · rw [activate_activating host config ha]
      rcases h with h | h
      · exact absurd ha h
      · simp only [List.mem_append, not_or]
        exact ⟨hgate, hw.2 (Or.inl h)⟩
    · rcases activate_not_activating host config ha with h' | h' <;> rw [h']
      · simp
      · simp only [List.mem_cons, List.mem_singleton, List.not_mem_nil, or_false, not_or]
        exact ⟨by simp, by simp, fun e => warning_ne_skip_notice e.symm⟩

theorem bypass_warning_precedes_check_witness :
    (ociWorkerInitializer sampleHost noFlags ⟨bypassConfig (some true)⟩).trace.getLast? =
        some (.warn noProcessSandboxWarning) ∧
      (ociWorkerInitializer sampleHost noFlags ⟨bypassConfig (some true)⟩).err =
        some "can't enable NoProcessSandbox without Rootless" ∧
      Event.warn noProcessSandboxWarning ∈
        (ociWorkerInitializer sampleHost noFlags ⟨rootlessConfig true⟩).trace :=
  have h := (bypass_warning_precedes_check sampleHost noFlags ⟨bypassConfig (some true)⟩
    (bypassConfig (some true)) (by decide) (by decide)).1 (by decide) (by decide)
  have h' := (bypass_warning_precedes_check sampleHost noFlags ⟨rootlessConfig true⟩
    (rootlessConfig true) (by decide) (by decide)).1 (by decide) (by decide)
  ⟨(h.2 (by decide)).1, (h.2 (by decide)).2, h'.1⟩

/-- C17: after a successful `applyOCIFlags`, `Rootless` is the value of
`oci-worker-rootless` when that flag is set, whatever the global flag and the base value;
otherwise it is the value of the global `rootless` flag when that flag is set or reads
true; otherwise it is the base value. -/
theorem rootless_precedence (host : Host) (c : Context) (B cfg' : Config)
    (hres : applyOCIFlags host c B = (cfg', none)) :
    (c.GlobalIsSet "oci-worker-rootless" = true →
      cfg'.OCI.Rootless = c.GlobalBool "oci-worker-rootless") ∧
    (c.GlobalIsSet "oci-worker-rootless" = false →
      (c.GlobalIsSet "rootless" = true ∨ c.GlobalBool "rootless" = true) →
      cfg'.OCI.Rootless = c.GlobalBool "rootless") ∧
    (c.GlobalIsSet "oci-worker-rootless" = false → c.GlobalIsSet "rootless" = false →
      c.GlobalBool "rootless" = false → cfg'.OCI.Rootless = B.OCI.Rootless) := by
  obtain ⟨en, L, _, _, rfl⟩ := applyOCIFlags_success host c B cfg' hres
  refine ⟨fun h => ?_, fun h hg => ?_, fun h hs hb => ?_⟩
  · simp [mergedConfig, h]
  · rcases hg with hg | hg <;> simp [mergedConfig, h, hg]
  · simp [mergedConfig, h, hs, hb]

theorem rootless_precedence_witness :
    (applyOCIFlags sampleHost (oneBoolFlag "oci-worker-rootless" true)
        autoConfig).1.OCI.Rootless = true ∧
      (applyOCIFlags sampleHost (oneBoolFlag "rootless" true) autoConfig).1.OCI.Rootless =
        true ∧
      (applyOCIFlags sampleHost noFlags autoConfig).1.OCI.Rootless =
        autoConfig.OCI.Rootless :=
  ⟨(rootless_precedence sampleHost (oneBoolFlag "oci-worker-rootless" true) autoConfig
      (applyOCIFlags sampleHost (oneBoolFlag "oci-worker-rootless" true) autoConfig).1
      (by decide)).1 (by decide),
    (rootless_precedence sampleHost (oneBoolFlag "rootless" true) autoConfig
      (applyOCIFlags sampleHost (oneBoolFlag "rootless" true) autoConfig).1
      (by decide)).2.1 (by decide) (Or.inl (by decide)),
    (rootless_precedence sampleHost noFlags autoConfig
      (applyOCIFlags sampleHost noFlags autoConfig).1
      (by decide)).2.2 (by decide) (by decide) (by decide)⟩

end Buildkitd
